import Mathlib

/-!
# Verification of the fictjs/kit request-handling and route-scanning core

This file shallowly embeds the route scanner (`packages/kit/src/core/routes/scan.ts`)
and the server request handler (`createRequestHandler` and its helpers) of the
fictjs/kit repository, and proves properties about the embedded definitions.

Modelling conventions:
* JavaScript strings are Lean `String`s; operations such as `slice`, `split`,
  `includes`, `replace` (first occurrence) are implemented structurally over
  `String.data` so that closed terms reduce.
* `Headers` objects are association lists with lower-cased keys; `set`
  replaces, `get` is case-insensitive.  The value-combining behaviour of the
  `Headers` constructor for duplicate names in a single literal is not
  modelled (never exercised by the code under verification).
* Promises collapse: every user-supplied async function is modelled as a pure
  Lean function returning `Except String α` (`.error` = rejected/thrown).
  There is a single logical task per request, so sequential `await`s are
  sequential `Except` matches.
* File-system enumeration (`walk`, `fs.access`) is the I/O boundary of
  `scanRoutes`: the embedding receives the directory-exists flag and the list
  of discovered file paths (relative to `routesDir`, with `/` separators), as
  produced by `walk` + `path.relative` + `normalizeSlashes` in the source.
-/

namespace FictKit

/-- ASCII lower-casing of a string, structurally (models JS header-name
normalisation). -/
def lowStr (s : String) : String := String.mk (s.data.map Char.toLower)

/-- ASCII upper-casing of a string (models `String.prototype.toUpperCase` for
the ASCII method names used by the code). -/
def upStr (s : String) : String := String.mk (s.data.map Char.toUpper)

/-- `p` is a leading chunk of `s` (models `String.prototype.startsWith`). -/
def strStarts (s p : String) : Bool := p.data.isPrefixOf s.data

/-- Drop the first `n` characters (models `String.prototype.slice(n)` for the
ASCII prefixes used by the code). -/
def strDrop (s : String) (n : Nat) : String := String.mk (s.data.drop n)

/-- `l` without its last `k` elements. -/
def takeBut (l : List Char) (k : Nat) : List Char := l.take (l.length - k)

/-- Split `cs` around the first occurrence of `marker`, returning the parts
before and after it; `none` when `marker` does not occur. -/
def splitFirstAux (marker : List Char) : List Char → Option (List Char × List Char)
  | [] => if marker.isEmpty then some ([], []) else none
  | c :: rest =>
    if marker.isPrefixOf (c :: rest) then some ([], (c :: rest).drop marker.length)
    else
      match splitFirstAux marker rest with
      | some (pre, post) => some (c :: pre, post)
      | none => none

/-- Models `String.prototype.includes`. -/
def strIncludes (s marker : String) : Bool := (splitFirstAux marker.data s.data).isSome

/-- Models `String.prototype.replace(marker, repl)` with a plain first-occurrence
replacement (the source passes either a replacement without `$` patterns or a
thunk, both of which behave as literal first-occurrence replacement). -/
def replaceFirst (s marker repl : String) : String :=
  match splitFirstAux marker.data s.data with
  | some (pre, post) => String.mk (pre ++ repl.data ++ post)
  | none => s

/-- Split a string on a separator character (models `String.prototype.split`
with a single-character separator: `""` splits to `[""]`). -/
def splitCharAux (sep : Char) : List Char → List Char → List (List Char)
  | [], acc => [acc.reverse]
  | c :: rest, acc =>
    if c == sep then acc.reverse :: splitCharAux sep rest []
    else splitCharAux sep rest (c :: acc)

def splitChar (sep : Char) (s : String) : List String :=
  (splitCharAux sep s.data []).map String.mk

/-- Join with a separator (models `Array.prototype.join`). -/
def joinSepAux (sep : List Char) : List (List Char) → List Char
  | [] => []
  | [x] => x
  | x :: y :: rest => x ++ sep ++ joinSepAux sep (y :: rest)

def joinSep (sep : String) (xs : List String) : String :=
  String.mk (joinSepAux sep.data (xs.map String.data))

/-- Headers as an association list with lower-cased keys.  `hset` models
`Headers.prototype.set` (replace in place, else append). -/
def hset (hs : List (String × String)) (name value : String) : List (String × String) :=
  let key := lowStr name
  if hs.any (fun kv => kv.1 == key) then
    hs.map (fun kv => if kv.1 == key then (key, value) else kv)
  else hs ++ [(key, value)]

/-- Models `Headers.prototype.get` (case-insensitive; `none` = `null`). -/
def hget (hs : List (String × String)) (name : String) : Option String :=
  (hs.find? (fun kv => kv.1 == lowStr name)).map (fun kv => kv.2)

/-- Models `Headers.prototype.has`. -/
def hhas (hs : List (String × String)) (name : String) : Bool := (hget hs name).isSome

/-- Build a `Headers` from a list of name/value pairs (models
`new Headers(init)`; duplicate-name combining is not modelled). -/
def headersOfList (init : List (String × String)) : List (String × String) :=
  init.foldl (fun hs kv => hset hs kv.1 kv.2) []

/-- Apply a sequence of `set` operations to a headers accumulator.  This is how
the handler applies the header mutations staged by `setHeaders` calls. -/
def applyStaged (h : List (String × String)) (hs : List (String × String)) :
    List (String × String) :=
  hs.foldl (fun acc kv => hset acc kv.1 kv.2) h

/-- The value the last `set` operation in `hs` assigns to `name`, if any. -/
def stagedLast : List (String × String) → String → Option String
  | [], _ => none
  | kv :: rest, name =>
    match stagedLast rest name with
    | some v => some v
    | none => if lowStr kv.1 == lowStr name then some kv.2 else none

/-- Models `decodeURIComponent` on percent-encoded ASCII: `%HH` becomes the
character with code `HH`; a malformed escape is a thrown `URIError`
(multi-byte UTF-8 sequences are not reassembled; the route ids exercised are
ASCII). -/
def hexDigit (c : Char) : Option Nat :=
  if '0' ≤ c ∧ c ≤ '9' then some (c.toNat - '0'.toNat)
  else if 'a' ≤ c ∧ c ≤ 'f' then some (c.toNat - 'a'.toNat + 10)
  else if 'A' ≤ c ∧ c ≤ 'F' then some (c.toNat - 'A'.toNat + 10)
  else none

def percentDecodeAux : List Char → Option (List Char)
  | [] => some []
  | '%' :: a :: b :: rest =>
    match hexDigit a, hexDigit b with
    | some ha, some hb => (percentDecodeAux rest).map (fun cs => Char.ofNat (16 * ha + hb) :: cs)
    | _, _ => none
  | '%' :: _ => none
  | c :: rest => (percentDecodeAux rest).map (fun cs => c :: cs)

def decodeURIComponent (s : String) : Except String String :=
  match percentDecodeAux s.data with
  | some cs => .ok (String.mk cs)
  | none => .error "URIError"

/-- Lookup in a JS `Map` built from an entries list (later entries overwrite
earlier ones with the same key). -/
def mapGetLast {α : Type} (entries : List (String × α)) (k : String) : Option α :=
  ((entries.filter (fun e => e.1 == k)).getLast?).map (fun e => e.2)

/-- Models `Map.prototype.set` on an insertion-ordered entries list. -/
def mapSetIns {α : Type} (entries : List (String × α)) (k : String) (v : α) :
    List (String × α) :=
  if entries.any (fun e => e.1 == k) then
    entries.map (fun e => if e.1 == k then (k, v) else e)
  else entries ++ [(k, v)]

/-- Models `URLSearchParams.prototype.get` (first occurrence). -/
def searchGet (ps : List (String × String)) (k : String) : Option String :=
  ((ps.find? (fun e => e.1 == k))).map (fun e => e.2)

/-- Models `URLSearchParams.prototype.has`. -/
def searchHas (ps : List (String × String)) (k : String) : Bool := (searchGet ps k).isSome

/-! ## Route scanner (`packages/kit/src/core/routes/scan.ts`) -/

/-- `RouteSegment` from `core/routes/types.ts`: a tagged variant parsed from one
file-path token. -/
inductive RouteSegment where
  | static (value : String)
  | param (name : String)
  | optionalParam (name : String)
  | rest (name : String)
deriving DecidableEq, Repr

/-- `RouteRecord` from `core/routes/types.ts` (the optional `file` diagnostic
field of `Diagnostic` is never set by `scanRoutes`, so `Diagnostic` is
level + message here). -/
structure RouteRecord where
  id : String
  file : String
  routePath : String
  segments : List RouteSegment
  signature : String
  score : Nat
deriving DecidableEq, Repr

inductive DiagLevel where
  | error
  | warn
deriving DecidableEq, Repr

structure Diagnostic where
  level : DiagLevel
  message : String
deriving DecidableEq, Repr

/-- Models `path.basename` for slash-separated relative paths. -/
def baseName (p : String) : String := ((splitChar '/' p).getLast?).getD ""

/-- Splits the reversed character list of a base name at its first `.` (the
last `.` of the base name): returns (reversed extension chars, reversed stem). -/
def dotSplitRev : List Char → Option (List Char × List Char)
  | [] => none
  | '.' :: rest => some ([], rest)
  | c :: rest => (dotSplitRev rest).map (fun pr => (c :: pr.1, pr.2))

/-- Models `path.extname`: the substring from the last `.` of the base name,
empty when there is no dot or the dot starts the base name. -/
def extName (p : String) : String :=
  let base := baseName p
  match dotSplitRev base.data.reverse with
  | some (revExt, revStem) =>
    if revStem.isEmpty then "" else String.mk ('.' :: revExt.reverse)
  | none => ""

/-- `relative.slice(0, -path.extname(relative).length)`: note the JS quirk that
`slice(0, -0)` is the empty string when the extension is empty. -/
def stripExt (relative : String) : String :=
  let ext := extName relative
  if ext.isEmpty then "" else String.mk (takeBut relative.data ext.data.length)

/-- `/^\[\.\.\.([^\]]+)\]$/` -/
def restName (s : String) : Option String :=
  let cs := s.data
  if strStarts s "[..." && "]".data.isSuffixOf cs then
    let name := takeBut (cs.drop 4) 1
    if name.isEmpty || name.contains ']' then none else some (String.mk name)
  else none

/-- `/^\[\[([^\]]+)\]\]$/` -/
def optionalName (s : String) : Option String :=
  let cs := s.data
  if strStarts s "[[" && "]]".data.isSuffixOf cs then
    let name := takeBut (cs.drop 2) 2
    if name.isEmpty || name.contains ']' then none else some (String.mk name)
  else none

/-- `/^\[([^\]]+)\]$/` -/
def paramName (s : String) : Option String :=
  let cs := s.data
  if strStarts s "[" && "]".data.isSuffixOf cs then
    let name := takeBut (cs.drop 1) 1
    if name.isEmpty || name.contains ']' then none else some (String.mk name)
  else none

/-- `parseSegment` from scan.ts: fixed precedence rest → optional-param →
param, falling through to a static segment with the literal text. -/
def parseSegment (segment : String) : RouteSegment :=
  match restName segment with
  | some n => .rest n
  | none =>
    match optionalName segment with
    | some n => .optionalParam n
    | none =>
      match paramName segment with
      | some n => .param n
      | none => .static segment

/-- `toSegments` from scan.ts: split the route id on `/`, drop a final `index`
segment, drop empty parts, parse the rest. -/
def toSegments (routeId : String) : List RouteSegment :=
  let parts := splitChar '/' routeId
  let leaf := (parts.getLast?).getD ""
  let pathParts := if leaf == "index" then parts.dropLast else parts
  (pathParts.filter (fun p => p != "")).map parseSegment

/-- `segmentToPathToken` from scan.ts (`encodePathSegment` is the identity in
the source). -/
def segmentToPathToken : RouteSegment → String
  | .static v => v
  | .param n => ":" ++ n
  | .optionalParam n => ":" ++ n ++ "?"
  | .rest n => "*" ++ n

/-- `.replace(/\/+/g, '/')`: collapse runs of slashes. -/
def collapseSlashesAux : List Char → Bool → List Char
  | [], _ => []
  | c :: rest, prevSlash =>
    if c == '/' then
      if prevSlash then collapseSlashesAux rest true
      else '/' :: collapseSlashesAux rest true
    else c :: collapseSlashesAux rest false

def collapseSlashes (s : String) : String := String.mk (collapseSlashesAux s.data false)

/-- `.replace(/\/$/, '')`: drop one trailing slash. -/
def dropTrailingSlash (s : String) : String :=
  if "/".data.isSuffixOf s.data then String.mk (takeBut s.data 1) else s

/-- `toRoutePath` from scan.ts. -/
def toRoutePath (segments : List RouteSegment) : String :=
  if segments.isEmpty then "/"
  else
    let joined := joinSep "/" ((segments.map segmentToPathToken).filter (fun t => t != ""))
    let normalized := dropTrailingSlash (collapseSlashes ("/" ++ joined))
    if normalized == "" then "/" else normalized

/-- `toSignature` from scan.ts: kind-only fingerprint (static keeps its value). -/
def toSignature (segments : List RouteSegment) : String :=
  joinSep "/"
    (segments.map fun segment =>
      match segment with
      | .static v => "s:" ++ v
      | .param _ => "p"
      | .optionalParam _ => "o"
      | .rest _ => "r")

/-- `computeScore` from scan.ts: the accumulator starts at the segment count
and the loop adds the per-kind points. -/
def computeScore (segments : List RouteSegment) : Nat :=
  segments.foldl
    (fun score segment =>
      score +
        match segment with
        | .static _ => 100
        | .param _ => 10
        | .optionalParam _ => 9
        | .rest _ => 1)
    segments.length

/-- `isIgnoredRouteFile` from scan.ts. -/
def isIgnoredRouteFile (p : String) : Bool :=
  let base := baseName p
  strStarts base "_" || strStarts base "."

/-- `appendMap` from scan.ts acting on an insertion-ordered group list. -/
def appendGroup (gs : List (String × List RouteRecord)) (k : String) (r : RouteRecord) :
    List (String × List RouteRecord) :=
  if gs.any (fun g => g.1 == k) then
    gs.map (fun g => if g.1 == k then (g.1, g.2 ++ [r]) else g)
  else gs ++ [(k, [r])]

def defaultExtensions : List String := [".ts", ".tsx", ".js", ".jsx"]

/-- The record built for one route file (the loop body of `scanRoutes`); `file`
is the path relative to `routesDir` with normalised slashes. -/
def buildRecord (file : String) : RouteRecord :=
  let withoutExt := stripExt file
  let segments := toSegments withoutExt
  { id := withoutExt
    file := file
    routePath := toRoutePath segments
    segments := segments
    signature := toSignature segments
    score := computeScore segments }

structure ScanOptions where
  extensions : Option (List String) := none
  ignore : Option (String → Bool) := none

structure ScanRoutesResult where
  routes : List RouteRecord
  diagnostics : List Diagnostic

/-- The filter pipeline of `scanRoutes` applied to the walked file list. -/
def scanFiles (files : List String) (opts : ScanOptions) : List String :=
  let exts :=
    match opts.extensions with
    | some es => if es.length != 0 then es else defaultExtensions
    | none => defaultExtensions
  ((files.filter (fun f => exts.contains (extName f))).filter
      (fun f => !isIgnoredRouteFile f)).filter
    (fun f => match opts.ignore with | some ig => !ig f | none => true)

/-- The records of `scanRoutes` in file order (before sorting). -/
def scanRecords (files : List String) (opts : ScanOptions) : List RouteRecord :=
  (scanFiles files opts).map buildRecord

def mkSignatureDiag (g : String × List RouteRecord) : Diagnostic :=
  { level := .error
    message :=
      "Route signature conflict \"" ++ g.1 ++ "\".\n" ++
        joinSep "\n" (g.2.map (fun r => "- " ++ r.id ++ " (" ++ r.routePath ++ ")")) }

def mkRoutePathDiag (g : String × List RouteRecord) : Diagnostic :=
  { level := .error
    message :=
      "Duplicate route path \"" ++ g.1 ++ "\".\n" ++
        joinSep "\n" (g.2.map (fun r => "- " ++ r.id)) }

/-- The sort comparator of `scanRoutes`
(`right.score - left.score || left.id.localeCompare(right.id)` sorts by
descending score, ties by ascending id; `localeCompare` is modelled as
code-point order, which agrees with it on the ASCII route ids involved). -/
def routeLe (l r : RouteRecord) : Bool :=
  r.score < l.score || (r.score == l.score && l.id ≤ r.id)

/-- The `bySignature` grouping map of `scanRoutes` (built by `appendMap` in
file order). -/
def sigGroups (files : List String) (opts : ScanOptions) :
    List (String × List RouteRecord) :=
  (scanRecords files opts).foldl (fun gs r => appendGroup gs r.signature r) []

/-- The `byRoutePath` grouping map of `scanRoutes`. -/
def pathGroups (files : List String) (opts : ScanOptions) :
    List (String × List RouteRecord) :=
  (scanRecords files opts).foldl (fun gs r => appendGroup gs r.routePath r) []

/-- `scanRoutes` from scan.ts over the I/O boundary described in the header:
`dirExists` is the `pathExists(routesDir)` result and `files` the relative
paths produced by `walk`. -/
def scanRoutes (routesDir : String) (dirExists : Bool) (files : List String)
    (opts : ScanOptions) : ScanRoutesResult :=
  if !dirExists then
    { routes := []
      diagnostics := [{ level := .warn
                        message := "Routes directory does not exist: " ++ routesDir }] }
  else
    { routes := (scanRecords files opts).mergeSort routeLe
      diagnostics :=
        ((sigGroups files opts).filter (fun g => g.2.length ≥ 2)).map mkSignatureDiag
          ++ ((pathGroups files opts).filter (fun g => g.2.length ≥ 2)).map mkRoutePathDiag }

/-! ## Server request handler (`packages/kit` server module, src/unnamed/part_005)

The value universe of route-module data is `JVal` (JSON-like values); the
response body is kept structured (`JSON.stringify` of the envelope object is
modelled by storing the object itself). -/

inductive JVal where
  | null
  | bool (b : Bool)
  | num (n : Int)
  | str (s : String)
  | arr (xs : List JVal)
  | obj (fields : List (String × JVal))
deriving Repr

/-- JS property lookup on an object value (the objects built by the handler
have distinct keys, so first-match lookup is exact). -/
def getField (v : JVal) (k : String) : Option JVal :=
  match v with
  | .obj fields => ((fields.find? (fun f => f.1 == k))).map (fun f => f.2)
  | _ => none

inductive ResponseBody where
  | empty
  | text (s : String)
  | json (v : JVal)
deriving Repr

structure ResponseE where
  status : Nat
  headers : List (String × String)
  body : ResponseBody
deriving Repr

/-- `json(body, status, extraHeaders)` from the server module: copy the extra
headers and force the JSON content type. -/
def jsonResponse (body : JVal) (status : Nat) (extraHeaders : List (String × String)) :
    ResponseE :=
  { status := status
    headers := hset extraHeaders "content-type" "application/json; charset=utf-8"
    body := .json body }

/-- `new Response(string, init)`: the platform adds a text/plain content type
when none is present. -/
def textResponse (s : String) (status : Nat) (headers : List (String × String)) :
    ResponseE :=
  { status := status
    headers :=
      if hhas headers "content-type" then headers
      else hset headers "content-type" "text/plain;charset=UTF-8"
    body := .text s }

/-- A parsed URL: `origin`, `pathname` (as it appears, still percent-encoded)
and the decoded search parameters. -/
structure UrlE where
  origin : String
  pathname : String
  search : List (String × String)
deriving Repr

structure RequestE where
  url : UrlE
  method : String
  headers : List (String × String)
deriving Repr

/-- Ghost trace of the user-code invocations the handler performs, used to
state ordering/laziness properties. -/
inductive TraceEv where
  | loadCall (routeId : String)
  | apiCall (routeId : String)
  | actionCall (routeId : String)
  | renderCall
  | handleErrorCall
deriving DecidableEq, Repr

/-- The per-request mutable context: header accumulator, status accumulator,
`locals` bag, plus the ghost trace. -/
structure HState where
  responseHeaders : List (String × String)
  responseStatus : Nat
  locals : List (String × JVal)
  trace : List TraceEv
deriving Repr

/-- The observable behaviour of one user `load`/`action` invocation: its result
(or thrown error), the `setHeaders` set-operations it performed in order, the
last `setStatus` argument, and the `locals` bag it leaves behind. -/
structure LoadOutcome where
  result : Except String JVal
  staged : List (String × String)
  statusSet : Option Nat
  newLocals : List (String × JVal)

/-- `load(event)`: the event exposes `url`, `params` and `locals` (the request
itself is fixed per theorem, so closing over it loses no generality). -/
def LoadFn : Type := UrlE → List (String × String) → List (String × JVal) → LoadOutcome

/-- An HTTP-verb handler returns a `Response` verbatim (its `setHeaders` and
`setStatus` stagings are discarded by the source, hence not modelled). -/
def ApiFn : Type :=
  UrlE → List (String × String) → List (String × JVal) → Except String ResponseE

inductive ActionValue where
  | response (r : ResponseE)
  | value (v : JVal)

structure ActionOutcome where
  result : Except String ActionValue
  staged : List (String × String)
  statusSet : Option Nat
  newLocals : List (String × JVal)

def ActionFn : Type := UrlE → List (String × String) → List (String × JVal) → ActionOutcome

/-- A JS number as far as `applyCacheMeta` observes it (finite values are kept
post-`Math.floor`, i.e. integral). -/
inductive JsNumber where
  | finite (n : Int)
  | nonFinite
deriving DecidableEq, Repr

structure CacheMeta where
  maxAge : Option JsNumber := none
deriving Repr

structure RouteMetaE where
  ssr : Option Bool := none
  prerender : Option Bool := none
  cache : Option CacheMeta := none
deriving Repr

/-- `RouteModuleExports`: every field optional; the dispatcher must branch on
presence before invoking. -/
structure RouteModuleE where
  load : Option LoadFn := none
  action : Option ActionFn := none
  GET : Option ApiFn := none
  POST : Option ApiFn := none
  PUT : Option ApiFn := none
  DELETE : Option ApiFn := none
  PATCH : Option ApiFn := none
  route : Option RouteMetaE := none

/-- `ServerRouteEntry`: the module accessor may reject (`.error`). -/
structure ServerRouteEntryE where
  id : String
  path : String
  module : Except String RouteModuleE

/-- One element of the matcher's result chain: the compiled route's `key` (the
route id) and the extracted params. -/
structure RouteMatchE where
  key : Option String
  params : List (String × String)

/-- The render context (`matchList` is the source's `matches` field; `matches`
is a reserved word in Lean). -/
structure RenderContextE where
  url : UrlE
  matchList : List RouteMatchE
  routeData : List (String × JVal)
  locals : List (String × JVal)

/-- A resolve step: request context in, response-or-thrown plus context out. -/
def ResolveFn : Type := HState → Except String ResponseE × HState

/-- `HandlerOptions`: `handleHook` is the `hooks.handle(event, resolve)`
wrapper viewed as a transformer of the resolve thunk; `handleError` is the
error hook (returning `.error` models the hook itself throwing). -/
structure HandlerOptionsE where
  routes : List ServerRouteEntryE
  getTemplate : UrlE → Except String String
  render : RenderContextE → Except String String
  handleHook : Option (ResolveFn → ResolveFn) := none
  handleError : Option (String → Except String Unit) := none

/-! ### `createEventFetch` -/

structure FetchInitE where
  headers : List (String × String)

/-- The outgoing fetch produced by the event fetch wrapper: the target as
given, and the headers actually sent. -/
structure OutgoingFetch where
  url : String
  headers : List (String × String)
deriving Repr

/-- One forwarding block of `createEventFetch` (the source repeats it for
`cookie` and `authorization`): inject the inbound header value when it is
non-empty (a JS truthiness check) and the caller did not supply the header. -/
def injectHeader (requestHeaders : List (String × String)) (name : String)
    (headers : List (String × String)) : List (String × String) :=
  match hget requestHeaders name with
  | some value =>
    if value != "" && !(hhas headers name) then hset headers name value else headers
  | none => headers

/-- `createEventFetch(request)` from the server module.  Note that the source
never inspects `input`: the inbound `cookie` and `authorization` headers are
injected for every target whenever the caller did not supply them. -/
def createEventFetch (requestHeaders : List (String × String)) (input : String)
    (init : FetchInitE) : OutgoingFetch :=
  { url := input
    headers :=
      injectHeader requestHeaders "authorization"
        (injectHeader requestHeaders "cookie" (headersOfList init.headers)) }

/-! ### Request classification and URL resolution -/

def dataPathStart : String := "/_fict/data/"

def actionPathStart : String := "/_fict/action/"

def isDataRequest (url : UrlE) : Bool :=
  strStarts url.pathname dataPathStart || searchHas url.search "__fict_data"

def isActionRequest (url : UrlE) : Bool :=
  strStarts url.pathname actionPathStart || searchHas url.search "__fict_action"

/-- `getRequestedRouteId`: the decode of a malformed path suffix throws (a
`URIError` propagating into the resolve flow). -/
def getRequestedRouteId (url : UrlE) (start : String) : Except String (Option String) :=
  if strStarts url.pathname start then
    (decodeURIComponent (strDrop url.pathname start.data.length)).map (fun s => some s)
  else
    let key := if start == dataPathStart then "__fict_data" else "__fict_action"
    .ok
      (match searchGet url.search key with
       | none => none
       | some v => if v == "" || v == "1" || v == "true" then none else some v)

def parseSearchStr (q : String) : List (String × String) :=
  (splitChar '&' q).filterMap fun kv =>
    if kv == "" then none
    else
      match splitFirstAux ['='] kv.data with
      | some (k, v) => some (String.mk k, String.mk v)
      | none => some (kv, "")

/-- Models `new URL(raw, origin)` for the absolute `http(s)://` and
root-relative forms the handler meets; other relative forms are unmodelled and
map to `none`, which `resolveTargetUrl` treats like the constructor throwing
(falling back to the request URL). Fragments are not modelled. -/
def newUrlE (raw : String) (origin : String) : Option UrlE :=
  if strStarts raw "http://" || strStarts raw "https://" then
    let schemeLen := if strStarts raw "http://" then 7 else 8
    let rest := strDrop raw schemeLen
    match splitFirstAux ['/'] rest.data with
    | some (host, pathAndQuery) =>
      let newOrigin := String.mk (raw.data.take schemeLen) ++ String.mk host
      match splitFirstAux ['?'] pathAndQuery with
      | some (p, q) =>
        some { origin := newOrigin, pathname := "/" ++ String.mk p
               search := parseSearchStr (String.mk q) }
      | none => some { origin := newOrigin, pathname := "/" ++ String.mk pathAndQuery
                       search := [] }
    | none => some { origin := raw, pathname := "/", search := [] }
  else if strStarts raw "/" then
    match splitFirstAux ['?'] raw.data with
    | some (p, q) => some { origin := origin, pathname := String.mk p
                            search := parseSearchStr (String.mk q) }
    | none => some { origin := origin, pathname := raw, search := [] }
  else none

/-- `resolveTargetUrl`: an absent or empty `url` parameter keeps the request
URL, as does a failing URL parse. -/
def resolveTargetUrl (url : UrlE) : UrlE :=
  match searchGet url.search "url" with
  | none => url
  | some raw =>
    if raw == "" then url
    else match newUrlE raw url.origin with
         | some u => u
         | none => url

/-- `new Map(options.routes.map(route => [route.id, route]))` followed by
`Map.get` (a later duplicate id overwrites an earlier one). -/
def routeMapGet (routes : List ServerRouteEntryE) (id : String) : Option ServerRouteEntryE :=
  (routes.filter (fun r => r.id == id)).getLast?

/-- `getRouteId(match)`: the compiled route's `key` when it is a string. -/
def getRouteId (m : RouteMatchE) : Option String := m.key

def getMethodHandler (m : RouteModuleE) (method : String) : Option ApiFn :=
  let upper := upStr method
  if upper == "GET" then m.GET
  else if upper == "POST" then m.POST
  else if upper == "PUT" then m.PUT
  else if upper == "DELETE" then m.DELETE
  else if upper == "PATCH" then m.PATCH
  else none

/-- `applyCacheMeta`: sets `cache-control` only for a present, finite
`route.cache.maxAge`. -/
def applyCacheMeta (headers : List (String × String)) (routeMeta : Option RouteMetaE) :
    List (String × String) :=
  match routeMeta with
  | none => headers
  | some m =>
    match m.cache with
    | none => headers
    | some c =>
      match c.maxAge with
      | none => headers
      | some .nonFinite => headers
      | some (.finite n) =>
        hset headers "cache-control" ("public, max-age=" ++ toString (max 0 n))

/-- `resolveLeafRouteMeta`: loads the leaf route's module (a rejecting accessor
propagates) and returns its `route` export. -/
def resolveLeafRouteMeta (routes : List ServerRouteEntryE) (matchList : List RouteMatchE) :
    Except String (Option RouteMetaE) :=
  match matchList.getLast? with
  | none => .ok none
  | some leaf =>
    match getRouteId leaf with
    | none => .ok none
    | some routeId =>
      match routeMapGet routes routeId with
      | none => .ok none
      | some entry => entry.module.map (fun m => m.route)

def isRedirectResult (v : JVal) : Bool :=
  (match getField v "type" with | some (.str s) => s == "redirect" | _ => false) &&
    (match getField v "location" with | some (.str _) => true | _ => false)

def isRedirectShape (v : JVal) : Bool :=
  match getField v "location" with | some (.str _) => true | _ => false

/-- `new Headers(result.headers)` for the object-of-strings form actually
producible in the `JVal` universe (other `HeadersInit` shapes unexercised). -/
def headersOfJVal (v : Option JVal) : List (String × String) :=
  match v with
  | some (.obj fields) =>
    fields.foldl (fun h kv => match kv.2 with | .str s => hset h kv.1 s | _ => h) []
  | _ => []

/-! ### Dispatch paths -/

def appHtmlMarker : String := "<!--app-html-->"

/-- `new Response('Internal Server Error', { status: 500 })`. -/
def internalServerErrorResponse : ResponseE := textResponse "Internal Server Error" 500 []

/-- Apply a load's staged `setHeaders`/`setStatus`/`locals` effects to the
per-request context (a load that throws still leaves its earlier mutations
applied, which is what the shared mutable event does in the source). -/
def applyLoadEffects (st : HState) (out : LoadOutcome) : HState :=
  { st with
    responseHeaders := applyStaged st.responseHeaders out.staged
    responseStatus := out.statusSet.getD st.responseStatus
    locals := out.newLocals }

/-- The loop of `loadMatchedRouteData`: chain order, skipping matches without
an id / entry / `load` export; a rejecting module accessor propagates
(uncaught in the source); a throwing `load` reports to `handleError` (whose
own throw propagates instead) and short-circuits with a generic 500. -/
def loadDataLoop (routes : List ServerRouteEntryE) (request : RequestE)
    (hErr : Option (String → Except String Unit)) :
    List RouteMatchE → List (String × JVal) → HState →
      Except String ((List (String × JVal)) ⊕ ResponseE) × HState
  | [], acc, st => (.ok (.inl acc), st)
  | m :: rest, acc, st =>
    match getRouteId m with
    | none => loadDataLoop routes request hErr rest acc st
    | some routeId =>
      match routeMapGet routes routeId with
      | none => loadDataLoop routes request hErr rest acc st
      | some entry =>
        match entry.module with
        | .error e => (.error e, st)
        | .ok modu =>
          match modu.load with
          | none => loadDataLoop routes request hErr rest acc st
          | some lf =>
            let st1 := { st with trace := st.trace ++ [.loadCall routeId] }
            let out := lf request.url m.params st1.locals
            let st2 := applyLoadEffects st1 out
            match out.result with
            | .ok data => loadDataLoop routes request hErr rest (mapSetIns acc routeId data) st2
            | .error e =>
              match hErr with
              | none => (.ok (.inr internalServerErrorResponse), st2)
              | some f =>
                let st3 := { st2 with trace := st2.trace ++ [.handleErrorCall] }
                match f e with
                | .error e2 => (.error e2, st3)
                | .ok _ => (.ok (.inr internalServerErrorResponse), st3)

/-- `loadMatchedRouteData`. -/
def loadMatchedRouteData (routes : List ServerRouteEntryE) (request : RequestE)
    (matchList : List RouteMatchE) (hErr : Option (String → Except String Unit))
    (st : HState) : Except String ((List (String × JVal)) ⊕ ResponseE) × HState :=
  loadDataLoop routes request hErr matchList [] st

/-- `maybeHandleApiRoute`: dispatches to a verb handler on the leaf module when
the request is a mutation or does not prefer HTML. -/
def maybeHandleApiRoute (routes : List ServerRouteEntryE) (request : RequestE)
    (matchList : List RouteMatchE) (st : HState) :
    Except String (Option ResponseE) × HState :=
  match matchList.getLast? with
  | none => (.ok none, st)
  | some leaf =>
    match getRouteId leaf with
    | none => (.ok none, st)
    | some routeId =>
      match routeMapGet routes routeId with
      | none => (.ok none, st)
      | some entry =>
        match entry.module with
        | .error e => (.error e, st)
        | .ok modu =>
          match getMethodHandler modu request.method with
          | none => (.ok none, st)
          | some handler =>
            let accept := (hget request.headers "accept").getD ""
            let wantsHtml := strIncludes accept "text/html"
            let isMutation := request.method != "GET" && request.method != "HEAD"
            if isMutation || !wantsHtml then
              let st1 := { st with trace := st.trace ++ [.apiCall routeId] }
              match handler request.url leaf.params st1.locals with
              | .error e => (.error e, st1)
              | .ok r => (.ok (some r), st1)
            else (.ok none, st)

/-- The tail of `handleDataRequest` once the target matched and the entry was
found without an id mismatch. -/
def dataRunLoad (routeId : String) (entry : ServerRouteEntryE)
    (target : UrlE) (leafParams : List (String × String)) (st : HState) :
    Except String ResponseE × HState :=
  match entry.module with
  | .error e => (.error e, st)
  | .ok modu =>
    match modu.load with
    | none =>
      (.ok (jsonResponse
              (.obj [("type", .str "data"), ("routeId", .str routeId), ("data", .null)])
              200 []), st)
    | some lf =>
      let st1 := { st with trace := st.trace ++ [TraceEv.loadCall routeId] }
      let out := lf target leafParams st1.locals
      let st2 := { st1 with locals := out.newLocals }
      match out.result with
      | .error e => (.error e, st2)
      | .ok data =>
        (.ok (jsonResponse
                (.obj [("type", .str "data"), ("routeId", .str routeId), ("data", data)])
                (out.statusSet.getD 200) (applyStaged [] out.staged)), st2)

/-- `handleDataRequest`.  An empty requested/leaf id is falsy in the source and
is reported as `unknown_route` without a `routeId` field. -/
def handleDataRequest (routes : List ServerRouteEntryE)
    (matchFn : String → Option (List RouteMatchE)) (request : RequestE)
    (requestedId : Option String) (st : HState) : Except String ResponseE × HState :=
  let target := resolveTargetUrl request.url
  let matchList := (matchFn target.pathname).getD []
  match matchList.getLast? with
  | none =>
    (.ok (jsonResponse (.obj [("type", .str "data"), ("error", .str "no_match")]) 404 []), st)
  | some leaf =>
    let leafId := getRouteId leaf
    match requestedId.orElse (fun _ => leafId) with
    | none =>
      (.ok (jsonResponse (.obj [("type", .str "data"), ("error", .str "unknown_route")])
              404 []), st)
    | some routeId =>
      if routeId == "" then
        (.ok (jsonResponse (.obj [("type", .str "data"), ("error", .str "unknown_route")])
                404 []), st)
      else
        match routeMapGet routes routeId with
        | none =>
          (.ok (jsonResponse
                  (.obj [("type", .str "data"), ("error", .str "unknown_route"),
                         ("routeId", .str routeId)]) 404 []), st)
        | some entry =>
          match leafId with
          | some l =>
            if l != "" && l != routeId then
              (.ok (jsonResponse
                      (.obj [("type", .str "data"), ("error", .str "route_mismatch"),
                             ("routeId", .str routeId), ("leafId", .str l)]) 400 []), st)
            else dataRunLoad routeId entry target leaf.params st
          | none => dataRunLoad routeId entry target leaf.params st

/-- The tail of `handleActionRequest` once the target matched and the entry was
found without an id mismatch: invoke `action` (or the verb-matched handler) and
translate its result (Response verbatim, tagged redirect, duck-typed redirect,
or JSON success envelope). -/
def actionRunHandler (request : RequestE) (routeId : String) (entry : ServerRouteEntryE)
    (target : UrlE) (leafParams : List (String × String)) (st : HState) :
    Except String ResponseE × HState :=
  match entry.module with
  | .error e => (.error e, st)
  | .ok modu =>
    match
      (match modu.action with
       | some a => some a
       | none =>
         match getMethodHandler modu request.method with
         | some h => some (fun url params locals =>
             { result := (h url params locals).map (fun r => ActionValue.response r)
               staged := []
               statusSet := none
               newLocals := locals })
         | none => none)
    with
    | none =>
      (.ok (jsonResponse
              (.obj [("type", .str "action"), ("routeId", .str routeId), ("data", .null)])
              200 []), st)
    | some act =>
      let st1 := { st with trace := st.trace ++ [TraceEv.actionCall routeId] }
      let out := act target leafParams st1.locals
      let st2 := { st1 with locals := out.newLocals }
      match out.result with
      | .error e => (.error e, st2)
      | .ok (.response r) => (.ok r, st2)
      | .ok (.value v) =>
        if isRedirectResult v then
          let loc := match getField v "location" with | some (.str s) => s | _ => ""
          let status := match getField v "status" with | some (.num n) => n.toNat | _ => 200
          (.ok { status := status
                 headers := hset (headersOfJVal (getField v "headers")) "location" loc
                 body := .empty }, st2)
        else if isRedirectShape v then
          let loc := match getField v "location" with | some (.str s) => s | _ => ""
          let status := match getField v "status" with | some (.num n) => n.toNat | _ => 302
          (.ok { status := status
                 headers := hset (headersOfJVal (getField v "headers")) "location" loc
                 body := .empty }, st2)
        else
          (.ok (jsonResponse
                  (.obj [("type", .str "action"), ("routeId", .str routeId), ("data", v)])
                  (out.statusSet.getD 200) (applyStaged [] out.staged)), st2)

/-- `handleActionRequest`: structurally the data path with `action` in place of
`load` and redirect-result translation. -/
def handleActionRequest (routes : List ServerRouteEntryE)
    (matchFn : String → Option (List RouteMatchE)) (request : RequestE)
    (requestedId : Option String) (st : HState) : Except String ResponseE × HState :=
  let target := resolveTargetUrl request.url
  let matchList := (matchFn target.pathname).getD []
  match matchList.getLast? with
  | none =>
    (.ok (jsonResponse (.obj [("type", .str "action"), ("error", .str "no_match")]) 404 []),
     st)
  | some leaf =>
    let leafId := getRouteId leaf
    match requestedId.orElse (fun _ => leafId) with
    | none =>
      (.ok (jsonResponse (.obj [("type", .str "action"), ("error", .str "unknown_route")])
              404 []), st)
    | some routeId =>
      if routeId == "" then
        (.ok (jsonResponse (.obj [("type", .str "action"), ("error", .str "unknown_route")])
                404 []), st)
      else
        match routeMapGet routes routeId with
        | none =>
          (.ok (jsonResponse
                  (.obj [("type", .str "action"), ("error", .str "unknown_route"),
                         ("routeId", .str routeId)]) 404 []), st)
        | some entry =>
          match leafId with
          | some l =>
            if l != "" && l != routeId then
              (.ok (jsonResponse
                      (.obj [("type", .str "action"), ("error", .str "route_mismatch"),
                             ("routeId", .str routeId), ("leafId", .str l)]) 400 []), st)
            else actionRunHandler request routeId entry target leaf.params st
          | none => actionRunHandler request routeId entry target leaf.params st

/-- The page branch of the `resolve` closure. -/
def resolvePage (opts : HandlerOptionsE) (matchFn : String → Option (List RouteMatchE))
    (request : RequestE) (st : HState) : Except String ResponseE × HState :=
  let matchList := (matchFn request.url.pathname).getD []
  match maybeHandleApiRoute opts.routes request matchList st with
  | (.error e, st1) => (.error e, st1)
  | (.ok (some r), st1) => (.ok r, st1)
  | (.ok none, st1) =>
    match resolveLeafRouteMeta opts.routes matchList with
    | .error e => (.error e, st1)
    | .ok meta =>
      let st2 := { st1 with responseHeaders := applyCacheMeta st1.responseHeaders meta }
      if (match meta with | some m => m.ssr == some false | none => false) then
        match opts.getTemplate request.url with
        | .error e => (.error e, st2)
        | .ok template =>
          let payload :=
            if strIncludes template appHtmlMarker then replaceFirst template appHtmlMarker ""
            else template
          (.ok { status := st2.responseStatus
                 headers := hset st2.responseHeaders "content-type" "text/html; charset=utf-8"
                 body := .text payload }, st2)
      else
        match loadMatchedRouteData opts.routes request matchList opts.handleError st2 with
        | (.error e, st3) => (.error e, st3)
        | (.ok (.inr r), st3) => (.ok r, st3)
        | (.ok (.inl routeData), st3) =>
          match opts.getTemplate request.url with
          | .error e => (.error e, st3)
          | .ok template =>
            let st4 := { st3 with trace := st3.trace ++ [TraceEv.renderCall] }
            match
              opts.render
                { url := request.url, matchList := matchList, routeData := routeData
                  locals := st4.locals }
            with
            | .error e => (.error e, st4)
            | .ok html =>
              let payload :=
                if strIncludes template appHtmlMarker then
                  replaceFirst template appHtmlMarker html
                else html
              (.ok { status := st4.responseStatus
                     headers :=
                       hset st4.responseHeaders "content-type" "text/html; charset=utf-8"
                     body := .text payload }, st4)

/-- The `resolve` closure: classification precedence data → action → page. -/
def resolveRequest (opts : HandlerOptionsE) (matchFn : String → Option (List RouteMatchE))
    (request : RequestE) (st : HState) : Except String ResponseE × HState :=
  if isDataRequest request.url then
    match getRequestedRouteId request.url dataPathStart with
    | .error e => (.error e, st)
    | .ok rid => handleDataRequest opts.routes matchFn request rid st
  else if isActionRequest request.url then
    match getRequestedRouteId request.url actionPathStart with
    | .error e => (.error e, st)
    | .ok rid => handleActionRequest opts.routes matchFn request rid st
  else resolvePage opts matchFn request st

/-- `respondInternalError`: invoke the error hook (its own throw propagates,
uncaught in the source), then choose the response shape by request class. -/
def respondInternalError (opts : HandlerOptionsE) (request : RequestE) (e : String)
    (st : HState) : Except String ResponseE × HState :=
  let hookRun : Except String Unit × HState :=
    match opts.handleError with
    | some f => (f e, { st with trace := st.trace ++ [TraceEv.handleErrorCall] })
    | none => (.ok (), st)
  match hookRun with
  | (.error e2, st1) => (.error e2, st1)
  | (.ok _, st1) =>
    if isDataRequest request.url then
      (.ok (jsonResponse (.obj [("type", .str "data"), ("error", .str "internal_error")])
              500 []), st1)
    else if isActionRequest request.url then
      (.ok (jsonResponse (.obj [("type", .str "action"), ("error", .str "internal_error")])
              500 []), st1)
    else
      let accept := (hget request.headers "accept").getD ""
      let isJsonRequest := strIncludes accept "application/json"
      let method := upStr request.method
      let isMutation := method != "GET" && method != "HEAD"
      if isJsonRequest || isMutation then
        (.ok (jsonResponse (.obj [("error", .str "internal_error")]) 500 []), st1)
      else (.ok (textResponse "Internal Server Error" 500 []), st1)

/-- `runResolve`: the try/catch around `resolve`. -/
def runResolve (opts : HandlerOptionsE) (matchFn : String → Option (List RouteMatchE))
    (request : RequestE) (st : HState) : Except String ResponseE × HState :=
  match resolveRequest opts matchFn request st with
  | (.ok r, st1) => (.ok r, st1)
  | (.error e, st1) => respondInternalError opts request e st1

def initialHState : HState :=
  { responseHeaders := [], responseStatus := 200, locals := [], trace := [] }

/-- The request handler returned by `createRequestHandler`, applied to one
request: when a `handle` hook is configured the whole flow runs as the
`resolve` callback handed to the hook, and a throwing hook is funneled to
`respondInternalError`. -/
def handleRequest (opts : HandlerOptionsE) (matchFn : String → Option (List RouteMatchE))
    (request : RequestE) : Except String ResponseE × HState :=
  match opts.handleHook with
  | some hook =>
    (match hook (runResolve opts matchFn request) initialHState with
     | (.ok r, st1) => (.ok r, st1)
     | (.error e, st1) => respondInternalError opts request e st1)
  | none => runResolve opts matchFn request initialHState

/-! ## Claim-specific fixtures and specification-side helpers -/

def exceptIsOk {α : Type} : Except String α → Bool
  | .ok _ => true
  | .error _ => false

/-- The `skips SSR render when route meta sets ssr false` test configuration. -/
def c3SsrFalseOpts : HandlerOptionsE :=
  { routes :=
      [{ id := "spa", path := "/spa"
         module := .ok
           { route := some { ssr := some false }
             load := some (fun _ _ locals =>
               { result := .ok (.obj [("secret", .bool true)])
                 staged := [], statusSet := none, newLocals := locals }) } }]
    getTemplate := fun _ => .ok "<html><body><main><!--app-html--></main></body></html>"
    render := fun _ => .ok "<div>server rendered</div>" }

def c3SpaMatch : String → Option (List RouteMatchE) :=
  fun p => if p == "/spa" then some [{ key := some "spa", params := [] }] else none

def c3SpaReq : RequestE :=
  { url := { origin := "http://local", pathname := "/spa", search := [] }
    method := "GET", headers := [] }

/-- The `respects global ssrEnabled=false option` test configuration — except
that `HandlerOptions` (the embedded `HandlerOptionsE`) has no global
SSR-disable field at all, which is precisely the divergence: the repository's
own test passes `ssrEnabled: false` and expects the load to be skipped and the
placeholder blanked, but the handler ignores the unknown option. -/
def c3GlobalOpts : HandlerOptionsE :=
  { routes :=
      [{ id := "home", path := "/"
         module := .ok
           { load := some (fun _ _ locals =>
               { result := .ok (.obj [("value", .num 1)])
                 staged := [], statusSet := none, newLocals := locals }) } }]
    getTemplate := fun _ => .ok "<html><body><!--app-html--></body></html>"
    render := fun _ => .ok "<div>rendered</div>" }

def c3HomeMatch : String → Option (List RouteMatchE) :=
  fun p => if p == "/" then some [{ key := some "home", params := [] }] else none

def c3HomeReq : RequestE :=
  { url := { origin := "http://local", pathname := "/", search := [] }
    method := "GET", headers := [] }

def c4wLoad : LoadFn := fun _ _ locals =>
  { result := .ok (.obj [("hello", .str "world")])
    staged := [], statusSet := none, newLocals := locals }

def c4wEntry : ServerRouteEntryE :=
  { id := "index", path := "/", module := .ok { load := some c4wLoad } }

def c4wMatch : String → Option (List RouteMatchE) :=
  fun p => if p == "/" then some [{ key := some "index", params := [] }] else none

def c4wReq : RequestE :=
  { url := { origin := "http://local", pathname := "/_fict/data/index"
             search := [("url", "/")] }
    method := "GET", headers := [] }

/-- Witness for C4 at the spec's own scenario
(`GET /_fict/data/index?url=%2F` against the `index` route). -/

def c5wLoadOk : LoadFn := fun _ _ locals =>
  { result := .ok (.str "one"), staged := [], statusSet := none, newLocals := locals }

def c5wLoadBad : LoadFn := fun _ _ locals =>
  { result := .error "boom", staged := [], statusSet := none, newLocals := locals }

def c5wRoutes : List ServerRouteEntryE :=
  [{ id := "r1", path := "/a", module := .ok { load := some c5wLoadOk } },
   { id := "r2", path := "/a/b", module := .ok { load := some c5wLoadBad } },
   { id := "r3", path := "/a/b/c", module := .ok { load := some c5wLoadOk } }]

def c5wReq : RequestE :=
  { url := { origin := "http://local", pathname := "/a/b/c", search := [] }
    method := "GET", headers := [] }

/-- The headers of the assembled page response for a single-match page whose
load staged the set-operations `hs`: cache-control from the route meta first,
then the staged sets, then the forced content type. -/
def pageHeaders (meta : Option RouteMetaE) (hs : List (String × String)) :
    List (String × String) :=
  hset (applyStaged (applyCacheMeta [] meta) hs) "content-type" "text/html; charset=utf-8"

def c6wModule : RouteModuleE :=
  { route := some { cache := some { maxAge := some (.finite 120) } }
    load := some (fun _ _ locals =>
      { result := .ok .null
        staged := [("x-custom", "1"), ("cache-control", "no-store")]
        statusSet := none, newLocals := locals }) }

def c6wOpts : HandlerOptionsE :=
  { routes := [{ id := "home", path := "/", module := .ok c6wModule }]
    getTemplate := fun _ => .ok "<!--app-html-->"
    render := fun _ => .ok "<div>home</div>" }

def c6wMatch : String → Option (List RouteMatchE) :=
  fun p => if p == "/" then some [{ key := some "home", params := [] }] else none

def c6wReq : RequestE :=
  { url := { origin := "http://local", pathname := "/", search := [] }
    method := "GET", headers := [] }

/-- The per-kind score points of the claim. -/
def specSegmentPoints : RouteSegment → Nat
  | .static _ => 100
  | .param _ => 10
  | .optionalParam _ => 9
  | .rest _ => 1

/-- `needle` occurs verbatim inside `hay` (stated over the character data). -/
def appearsIn (needle hay : String) : Prop :=
  ∃ pre post : List Char, hay.data = pre ++ needle.data ++ post

def errorDiags (res : ScanRoutesResult) : List Diagnostic :=
  res.diagnostics.filter (fun d => d.level == DiagLevel.error)

/-! ## Header-algebra lemmas -/

theorem find?_subst_any {h : List (String × String)} {key v : String}
    (ha : h.any (fun kv => kv.1 == key) = true) :
    (h.map (fun kv => if kv.1 == key then (key, v) else kv)).find?
        (fun kv => kv.1 == key) = some (key, v) := by
  induction h with
  | nil => simp at ha
  | cons kv rest ih =>
    rw [List.map_cons]
    by_cases hkv : (kv.1 == key) = true
    · rw [if_pos hkv, List.find?_cons]
      simp
    · rw [if_neg hkv]
      have hfalse : (kv.1 == key) = false := by simpa using hkv
      rw [List.find?_cons, hfalse]
      show (rest.map _).find? _ = some (key, v)
      apply ih
      simpa [hfalse] using ha

theorem find?_subst_ne {h : List (String × String)} {key key' v : String}
    (hne : key ≠ key') :
    (h.map (fun kv => if kv.1 == key then (key, v) else kv)).find?
        (fun kv => kv.1 == key')
      = h.find? (fun kv => kv.1 == key') := by
  induction h with
  | nil => simp
  | cons kv rest ih =>
    rw [List.map_cons]
    by_cases hkv : (kv.1 == key) = true
    · rw [if_pos hkv]
      have hkveq : kv.1 = key := by simpa using hkv
      have hb1 : ((key, v).1 == key') = false := by simpa using hne
      have hb2 : (kv.1 == key') = false := by
        rw [hkveq]
        simpa using hne
      rw [List.find?_cons, List.find?_cons]
      show (match ((key, v).1 == key') with
            | true => some ((key : String), v)
            | false => (rest.map _).find? _) = _
      rw [hb1, hb2]
      exact ih
    · rw [if_neg hkv]
      rw [List.find?_cons, List.find?_cons]
      cases hkv2 : (kv.1 == key') with
      | true => rfl
      | false => exact ih

theorem hget_hset_eq (h : List (String × String)) (k k' v : String)
    (hk : lowStr k = lowStr k') : hget (hset h k v) k' = some v := by
  unfold hget hset
  rw [← hk]
  by_cases hany : h.any (fun kv => kv.1 == lowStr k)
  · simp only [hany, if_true]
    rw [find?_subst_any hany]
    rfl
  · simp only [Bool.not_eq_true] at hany
    simp only [hany, if_false, List.find?_append]
    have hnone : h.find? (fun kv => kv.1 == lowStr k) = none := by
      rw [List.find?_eq_none]
      intro x hx hpx
      have : h.any (fun kv => kv.1 == lowStr k) = true := by
        rw [List.any_eq_true]; exact ⟨x, hx, hpx⟩
      simp [this] at hany
    simp [hnone]

theorem hget_hset_ne (h : List (String × String)) (k k' v : String)
    (hk : lowStr k ≠ lowStr k') : hget (hset h k v) k' = hget h k' := by
  unfold hget hset
  by_cases hany : h.any (fun kv => kv.1 == lowStr k)
  · simp only [hany, if_true]
    rw [find?_subst_ne hk]
  · simp only [Bool.not_eq_true] at hany
    simp only [hany, if_false, List.find?_append]
    have h2 : ¬ ((lowStr k, v).1 == lowStr k') := by simpa using hk
    simp [h2]

theorem hget_applyStaged (h : List (String × String)) (hs : List (String × String))
    (k : String) :
    hget (applyStaged h hs) k =
      match stagedLast hs k with
      | some v => some v
      | none => hget h k := by
  induction hs generalizing h with
  | nil => simp [applyStaged, stagedLast]
  | cons kv rest ih =>
    show hget (applyStaged (hset h kv.1 kv.2) rest) k = _
    rw [ih]
    by_cases hS : lowStr kv.1 = lowStr k
    · cases hrest : stagedLast rest k with
      | some v => simp [stagedLast, hrest]
      | none => simp [stagedLast, hrest, hS, hget_hset_eq h kv.1 k kv.2 hS]
    · cases hrest : stagedLast rest k with
      | some v => simp [stagedLast, hrest]
      | none =>
        have : ¬ (lowStr kv.1 == lowStr k) := by simpa using hS
        simp [stagedLast, hrest, this, hget_hset_ne h kv.1 k kv.2 hS]

/-! ## C1 / C10: the event fetch wrapper -/

/-- C1: `createEventFetch` never inspects the target, so an absolute
cross-origin call still receives the inbound `cookie` and `authorization`
headers.  This evaluates the wrapper at the repository's own cross-origin test
input (`does not forward auth headers for cross-origin event.fetch`), where the
test expects both lookups to be `none`: the code forwards both, contradicting
the claim and the test. -/
theorem c1_cross_origin_fetch_leaks_credentials :
    (createEventFetch [("cookie", "session=xyz"), ("authorization", "Bearer token")]
          "https://third-party.example/api" { headers := [("x-request-id", "abc123")] }).headers
        = [("x-request-id", "abc123"), ("cookie", "session=xyz"),
           ("authorization", "Bearer token")]
      ∧ hget (createEventFetch [("cookie", "session=xyz"), ("authorization", "Bearer token")]
            "https://third-party.example/api"
            { headers := [("x-request-id", "abc123")] }).headers "cookie"
          = some "session=xyz"
      ∧ hget (createEventFetch [("cookie", "session=xyz"), ("authorization", "Bearer token")]
            "https://third-party.example/api"
            { headers := [("x-request-id", "abc123")] }).headers "authorization"
          = some "Bearer token" := by
  refine ⟨rfl, rfl, rfl⟩

/-- `injectHeader` does not touch headers with a different (case-normalised)
name. -/
theorem hget_injectHeader_other (reqH hs : List (String × String)) (name k : String)
    (hne : lowStr name ≠ lowStr k) :
    hget (injectHeader reqH name hs) k = hget hs k := by
  unfold injectHeader
  cases hr : hget reqH name with
  | none => rfl
  | some value =>
    dsimp only
    by_cases hcond : (value != "" && !(hhas hs name)) = true
    · rw [if_pos hcond]
      exact hget_hset_ne _ _ _ _ hne
    · rw [if_neg hcond]

/-- `injectHeader` keeps a header the caller already supplied. -/
theorem hget_injectHeader_present (reqH hs : List (String × String)) (name v : String)
    (hv : hget hs name = some v) :
    hget (injectHeader reqH name hs) name = some v := by
  unfold injectHeader
  have hhasT : hhas hs name = true := by unfold hhas; rw [hv]; rfl
  cases hr : hget reqH name with
  | none => exact hv
  | some value => simp [hhasT, hv]

/-- `injectHeader` injects a non-empty inbound value into an absent header. -/
theorem hget_injectHeader_absent (reqH hs : List (String × String)) (name c : String)
    (hnone : hget hs name = none) (hr : hget reqH name = some c) (hc : c ≠ "") :
    hget (injectHeader reqH name hs) name = some c := by
  unfold injectHeader
  have hhasF : hhas hs name = false := by unfold hhas; rw [hnone]; rfl
  have hcEmpty : (c != "") = true := by simpa using hc
  rw [hr]
  simp only [hhasF, hcEmpty, Bool.not_false, Bool.and_true, if_true]
  exact hget_hset_eq _ _ _ _ rfl

/-- C10: a caller-supplied `cookie`/`authorization` header in the fetch init is
sent unchanged; the inbound request values are injected only when the caller
left the header absent. -/
theorem c10_fetch_respects_caller_headers (reqH : List (String × String))
    (target : String) (init : FetchInitE) :
    (∀ v, hget (headersOfList init.headers) "cookie" = some v →
        hget (createEventFetch reqH target init).headers "cookie" = some v)
  ∧ (∀ v, hget (headersOfList init.headers) "authorization" = some v →
        hget (createEventFetch reqH target init).headers "authorization" = some v)
  ∧ (∀ c, hget (headersOfList init.headers) "cookie" = none →
        hget reqH "cookie" = some c → c ≠ "" →
        hget (createEventFetch reqH target init).headers "cookie" = some c)
  ∧ (∀ a, hget (headersOfList init.headers) "authorization" = none →
        hget reqH "authorization" = some a → a ≠ "" →
        hget (createEventFetch reqH target init).headers "authorization" = some a) := by
  have hne : lowStr "authorization" ≠ lowStr "cookie" := by decide
  refine ⟨?_, ?_, ?_, ?_⟩
  · intro v hv
    show hget (injectHeader reqH "authorization" _) "cookie" = some v
    rw [hget_injectHeader_other _ _ _ _ hne]
    exact hget_injectHeader_present _ _ _ _ hv
  · intro v hv
    show hget (injectHeader reqH "authorization" _) "authorization" = some v
    apply hget_injectHeader_present
    rw [hget_injectHeader_other _ _ _ _ (by decide)]
    exact hv
  · intro c hnone hc hcne
    show hget (injectHeader reqH "authorization" _) "cookie" = some c
    rw [hget_injectHeader_other _ _ _ _ hne]
    exact hget_injectHeader_absent _ _ _ _ hnone hc hcne
  · intro a hnone ha hane
    show hget (injectHeader reqH "authorization" _) "authorization" = some a
    apply hget_injectHeader_absent _ _ _ _ _ ha hane
    rw [hget_injectHeader_other _ _ _ _ (by decide)]
    exact hnone

/-- Witness for C10 at a concrete input: the caller supplied `cookie`, the
inbound request supplies `authorization`. -/
theorem c10_witness :
    hget (createEventFetch [("cookie", "inbound=1"), ("authorization", "Bearer tok")]
        "/api/session" { headers := [("cookie", "mine=2")] }).headers "cookie" = some "mine=2"
    ∧ hget (createEventFetch [("cookie", "inbound=1"), ("authorization", "Bearer tok")]
        "/api/session" { headers := [("cookie", "mine=2")] }).headers "authorization"
      = some "Bearer tok" :=
  ⟨(c10_fetch_respects_caller_headers
      [("cookie", "inbound=1"), ("authorization", "Bearer tok")] "/api/session"
      { headers := [("cookie", "mine=2")] }).1 "mine=2" (by decide),
   (c10_fetch_respects_caller_headers
      [("cookie", "inbound=1"), ("authorization", "Bearer tok")] "/api/session"
      { headers := [("cookie", "mine=2")] }).2.2.2 "Bearer tok" (by decide) (by decide)
      (by decide)⟩

/-! ## C2: the handler never rejects (amended: unless `handleError` throws) -/


theorem respondInternalError_isOk (opts : HandlerOptionsE) (request : RequestE)
    (e : String) (st : HState)
    (hE : ∀ f e2, opts.handleError = some f → exceptIsOk (f e2) = true) :
    exceptIsOk (respondInternalError opts request e st).1 = true := by
  unfold respondInternalError
  cases hf : opts.handleError with
  | none =>
    dsimp only
    split
    · rfl
    · split
      · rfl
      · split <;> rfl
  | some f =>
    have hok := hE f e hf
    dsimp only
    cases hfe : f e with
    | error e2 => rw [hfe] at hok; exact absurd hok (by simp [exceptIsOk])
    | ok u =>
      dsimp only
      split
      · rfl
      · split
        · rfl
        · split <;> rfl

theorem runResolve_isOk (opts : HandlerOptionsE)
    (matchFn : String → Option (List RouteMatchE)) (request : RequestE) (st : HState)
    (hE : ∀ f e2, opts.handleError = some f → exceptIsOk (f e2) = true) :
    exceptIsOk (runResolve opts matchFn request st).1 = true := by
  unfold runResolve
  cases hres : resolveRequest opts matchFn request st with
  | mk r st1 =>
    cases r with
    | ok resp => rfl
    | error e => exact respondInternalError_isOk opts request e st1 hE

/-- C2 (amended): for every configuration of routes, hooks, template and render
— including throwing route-module accessors, `load`/`action`/API handlers,
template/render functions and a throwing `handle` hook — the handler fulfils
with a `Response`, provided the `handleError` hook does not itself throw when
invoked.  (The unamended claim fails: see the counterexample.) -/
theorem c2_handle_never_rejects (opts : HandlerOptionsE)
    (matchFn : String → Option (List RouteMatchE)) (request : RequestE)
    (hE : ∀ f e2, opts.handleError = some f → exceptIsOk (f e2) = true) :
    exceptIsOk (handleRequest opts matchFn request).1 = true := by
  unfold handleRequest
  cases hh : opts.handleHook with
  | none => exact runResolve_isOk opts matchFn request initialHState hE
  | some hook =>
    dsimp only
    cases hres : hook (runResolve opts matchFn request) initialHState with
    | mk r st1 =>
      cases r with
      | ok resp => rfl
      | error e => exact respondInternalError_isOk opts request e st1 hE

/-- Witness for C2 at a concrete configuration whose template getter throws
and whose `handleError` hook is total. -/
theorem c2_witness :
    exceptIsOk
      (handleRequest
        { routes := []
          getTemplate := fun _ => .error "template boom"
          render := fun _ => .ok "x"
          handleError := some (fun _ => .ok ()) }
        (fun _ => none)
        { url := { origin := "http://local", pathname := "/", search := [] }
          method := "GET", headers := [] }).1 = true :=
  c2_handle_never_rejects
    { routes := []
      getTemplate := fun _ => .error "template boom"
      render := fun _ => .ok "x"
      handleError := some (fun _ => .ok ()) }
    (fun _ => none)
    { url := { origin := "http://local", pathname := "/", search := [] }
      method := "GET", headers := [] }
    (by
      intro f e2 hsome
      cases hsome
      rfl)

/-- Counterexample to C2 as stated: when the `handleError` hook itself throws
while handling a failure (here: the template getter throws on a plain page
request), the rejection escapes `handle(request)` — the promise rejects
instead of fulfilling with a Response. -/
theorem c2_counterexample :
    (handleRequest
        { routes := []
          getTemplate := fun _ => .error "template boom"
          render := fun _ => .ok "x"
          handleError := some (fun _ => .error "error hook boom") }
        (fun _ => none)
        { url := { origin := "http://local", pathname := "/", search := [] }
          method := "GET", headers := [] }).1
      = .error "error hook boom" := rfl

/-! ## C3: `route.ssr === false` skips load/render; there is no global switch -/

/-- C3: with `route.ssr === false` the page path invokes no `load` and never
calls render (empty trace) and serves the template with the placeholder
replaced by the empty string; but at the global-switch configuration of the
repository's own test (`ssrEnabled: false`, a field the handler does not
have), `load` and `render` both run and the rendered markup is spliced in —
the code contradicts its test, so the global-switch half of the claim is a
code bug. -/
theorem c3_ssr_false_skips_load_and_render :
    ((handleRequest c3SsrFalseOpts c3SpaMatch c3SpaReq).1
        = .ok { status := 200
                headers := [("content-type", "text/html; charset=utf-8")]
                body := .text "<html><body><main></main></body></html>" }
      ∧ (handleRequest c3SsrFalseOpts c3SpaMatch c3SpaReq).2.trace = [])
  ∧ ((handleRequest c3GlobalOpts c3HomeMatch c3HomeReq).1
        = .ok { status := 200
                headers := [("content-type", "text/html; charset=utf-8")]
                body := .text "<html><body><div>rendered</div></body></html>" }
      ∧ (handleRequest c3GlobalOpts c3HomeMatch c3HomeReq).2.trace
          = [TraceEv.loadCall "home", TraceEv.renderCall]) :=
  ⟨⟨rfl, rfl⟩, ⟨rfl, rfl⟩⟩

/-! ## C4: the data-endpoint response envelopes -/

/-- C4 (amended): the data path produces exactly the claimed envelopes, except
that the success status is 200 only by default — a `setStatus` call during
`load` overrides it (see the counterexample); also `unknown_route` takes
precedence over `route_mismatch` when an explicitly requested id is both
unknown and different from the leaf id. -/
theorem c4_data_request_envelopes (routes : List ServerRouteEntryE)
    (matchFn : String → Option (List RouteMatchE)) (request : RequestE)
    (requestedId : Option String) (st : HState) :
    (((matchFn (resolveTargetUrl request.url).pathname).getD []).getLast? = none →
      handleDataRequest routes matchFn request requestedId st
        = (.ok (jsonResponse (.obj [("type", .str "data"), ("error", .str "no_match")])
                  404 []), st))
  ∧ (∀ leaf, ((matchFn (resolveTargetUrl request.url).pathname).getD []).getLast? = some leaf →
      leaf.key = none → requestedId = none →
      handleDataRequest routes matchFn request requestedId st
        = (.ok (jsonResponse (.obj [("type", .str "data"), ("error", .str "unknown_route")])
                  404 []), st))
  ∧ (∀ leaf rid, ((matchFn (resolveTargetUrl request.url).pathname).getD []).getLast?
          = some leaf →
      requestedId.orElse (fun _ => leaf.key) = some rid → rid ≠ "" →
      routeMapGet routes rid = none →
      handleDataRequest routes matchFn request requestedId st
        = (.ok (jsonResponse
                  (.obj [("type", .str "data"), ("error", .str "unknown_route"),
                         ("routeId", .str rid)]) 404 []), st))
  ∧ (∀ leaf rid entry l, ((matchFn (resolveTargetUrl request.url).pathname).getD []).getLast?
          = some leaf →
      requestedId.orElse (fun _ => leaf.key) = some rid → rid ≠ "" →
      routeMapGet routes rid = some entry →
      leaf.key = some l → l ≠ "" → l ≠ rid →
      handleDataRequest routes matchFn request requestedId st
        = (.ok (jsonResponse
                  (.obj [("type", .str "data"), ("error", .str "route_mismatch"),
                         ("routeId", .str rid), ("leafId", .str l)]) 400 []), st))
  ∧ (∀ leaf rid entry modu, ((matchFn (resolveTargetUrl request.url).pathname).getD []).getLast?
          = some leaf →
      leaf.key = some rid → requestedId.orElse (fun _ => leaf.key) = some rid → rid ≠ "" →
      routeMapGet routes rid = some entry → entry.module = .ok modu → modu.load = none →
      handleDataRequest routes matchFn request requestedId st
        = (.ok (jsonResponse
                  (.obj [("type", .str "data"), ("routeId", .str rid), ("data", .null)])
                  200 []), st))
  ∧ (∀ leaf rid entry modu lf d, ((matchFn (resolveTargetUrl request.url).pathname).getD
            []).getLast? = some leaf →
      leaf.key = some rid → requestedId.orElse (fun _ => leaf.key) = some rid → rid ≠ "" →
      routeMapGet routes rid = some entry → entry.module = .ok modu → modu.load = some lf →
      (lf (resolveTargetUrl request.url) leaf.params st.locals).result = .ok d →
      handleDataRequest routes matchFn request requestedId st
        = (.ok (jsonResponse
                  (.obj [("type", .str "data"), ("routeId", .str rid), ("data", d)])
                  (((lf (resolveTargetUrl request.url) leaf.params st.locals).statusSet).getD
                    200)
                  (applyStaged []
                    (lf (resolveTargetUrl request.url) leaf.params st.locals).staged)),
            { st with trace := st.trace ++ [TraceEv.loadCall rid]
                      locals := (lf (resolveTargetUrl request.url) leaf.params
                          st.locals).newLocals }))
  ∧ (∀ getT rend leaf rid entry modu lf e,
      isDataRequest request.url = true →
      getRequestedRouteId request.url dataPathStart = .ok requestedId →
      ((matchFn (resolveTargetUrl request.url).pathname).getD []).getLast? = some leaf →
      leaf.key = some rid → requestedId.orElse (fun _ => leaf.key) = some rid → rid ≠ "" →
      routeMapGet routes rid = some entry → entry.module = .ok modu → modu.load = some lf →
      (lf (resolveTargetUrl request.url) leaf.params initialHState.locals).result
          = .error e →
      (handleRequest { routes := routes, getTemplate := getT, render := rend }
          matchFn request).1
        = .ok (jsonResponse
                 (.obj [("type", .str "data"), ("error", .str "internal_error")]) 500 [])) := by
  refine ⟨?_, ?_, ?_, ?_, ?_, ?_, ?_⟩
  · intro hM
    unfold handleDataRequest
    try dsimp only
    rw [hM]
  · intro leaf hM hkey hreq
    unfold handleDataRequest
    try dsimp only
    rw [hM]
    try dsimp only
    rw [hreq, show getRouteId leaf = none from hkey]
    rfl
  · intro leaf rid hM hres hrid hrm
    unfold handleDataRequest
    try dsimp only
    rw [hM]
    try dsimp only
    rw [show requestedId.orElse (fun _ => getRouteId leaf) = some rid from hres]
    try dsimp only
    rw [if_neg (by simpa using hrid)]
    rw [hrm]
  · intro leaf rid entry l hM hres hrid hrm hkey hl hlr
    unfold handleDataRequest
    try dsimp only
    rw [hM]
    try dsimp only
    rw [show requestedId.orElse (fun _ => getRouteId leaf) = some rid from hres]
    try dsimp only
    rw [if_neg (by simpa using hrid)]
    rw [hrm]
    try dsimp only
    rw [show getRouteId leaf = some l from hkey]
    try dsimp only
    rw [if_pos (by simp [hl, hlr])]
  · intro leaf rid entry modu hM hkey hres hrid hrm hmod hload
    unfold handleDataRequest
    try dsimp only
    rw [hM]
    try dsimp only
    rw [show requestedId.orElse (fun _ => getRouteId leaf) = some rid from hres]
    try dsimp only
    rw [if_neg (by simpa using hrid)]
    rw [hrm]
    try dsimp only
    rw [show getRouteId leaf = some rid from hkey]
    try dsimp only
    rw [if_neg (by simp)]
    unfold dataRunLoad
    rw [hmod]
    try dsimp only
    rw [hload]
  · intro leaf rid entry modu lf d hM hkey hres hrid hrm hmod hload hok
    unfold handleDataRequest
    try dsimp only
    rw [hM]
    try dsimp only
    rw [show requestedId.orElse (fun _ => getRouteId leaf) = some rid from hres]
    try dsimp only
    rw [if_neg (by simpa using hrid)]
    rw [hrm]
    try dsimp only
    rw [show getRouteId leaf = some rid from hkey]
    try dsimp only
    rw [if_neg (by simp)]
    unfold dataRunLoad
    rw [hmod]
    try dsimp only
    rw [hload]
    try dsimp only
    rw [show (lf (resolveTargetUrl request.url) leaf.params
        ({ st with trace := st.trace ++ [TraceEv.loadCall rid] } : HState).locals).result
        = Except.ok d from hok]
  · intro getT rend leaf rid entry modu lf e hData hRid hM hkey hres hrid hrm hmod hload herr
    unfold handleRequest runResolve resolveRequest
    try dsimp only
    rw [hData]
    try dsimp only
    rw [if_pos rfl, hRid]
    try dsimp only
    have hDR : handleDataRequest routes matchFn request requestedId initialHState
        = (.error e,
           { initialHState with
               trace := initialHState.trace ++ [TraceEv.loadCall rid]
               locals := (lf (resolveTargetUrl request.url) leaf.params
                   initialHState.locals).newLocals }) := by
      unfold handleDataRequest
      try dsimp only
      rw [hM]
      try dsimp only
      rw [show requestedId.orElse (fun _ => getRouteId leaf) = some rid from hres]
      try dsimp only
      rw [if_neg (by simpa using hrid)]
      rw [hrm]
      try dsimp only
      rw [show getRouteId leaf = some rid from hkey]
      try dsimp only
      rw [if_neg (by simp)]
      unfold dataRunLoad
      rw [hmod]
      try dsimp only
      rw [hload]
      try dsimp only
      rw [show (lf (resolveTargetUrl request.url) leaf.params
          ({ initialHState with
               trace := initialHState.trace ++ [TraceEv.loadCall rid] } : HState).locals).result
          = Except.error e from herr]
    rw [hDR]
    try dsimp only
    unfold respondInternalError
    try dsimp only
    rw [hData]
    rfl

/-- Counterexample to C4 as stated: a matching route whose module exports a
`load` that stages `setStatus(418)` — the claim requires status 200 here, but
the response carries the staged status. -/
theorem c4_counterexample :
    (handleDataRequest
        [{ id := "index", path := "/"
           module := .ok
             { load := some (fun _ _ locals =>
                 { result := .ok .null, staged := [], statusSet := some 418
                   newLocals := locals }) } }]
        (fun p => if p == "/" then some [{ key := some "index", params := [] }] else none)
        { url := { origin := "http://local", pathname := "/_fict/data/index"
                   search := [("url", "/")] }
          method := "GET", headers := [] }
        (some "index") initialHState).1
      = .ok (jsonResponse
               (.obj [("type", .str "data"), ("routeId", .str "index"), ("data", .null)])
               418 [])
    ∧ (418 : Nat) ≠ 200 := ⟨rfl, by decide⟩

/-- Witness for C4: a concrete matching data request whose load sets no status
produces the success envelope with the default status 200. -/
theorem c4_witness :
    handleDataRequest [c4wEntry] c4wMatch c4wReq (some "index") initialHState
      = (.ok (jsonResponse
                (.obj [("type", .str "data"), ("routeId", .str "index"),
                       ("data", .obj [("hello", .str "world")])]) 200 []),
         { initialHState with trace := [TraceEv.loadCall "index"], locals := [] }) := by
  have h := (c4_data_request_envelopes [c4wEntry] c4wMatch c4wReq (some "index")
      initialHState).2.2.2.2.2.1
  exact h { key := some "index", params := [] } "index" c4wEntry { load := some c4wLoad }
    c4wLoad (.obj [("hello", .str "world")]) rfl rfl rfl (by decide) rfl rfl rfl rfl

/-! ## C5: sequential chain-ordered loads with short-circuit on first error -/

/-- C5: the load loop runs the chain strictly in order — if every load before
`m` succeeds (producing state `st1`), and `m`'s load throws, then the whole
chain produces the generic 500 response: the remaining matches (`post`) are
never consulted, the partial results `acc1` are discarded, the trace gains
exactly the failing load call followed by the `handleError` invocation; and
(second part) when the load chain short-circuits with a Response, the page
path returns it verbatim — the render function is never invoked, so no
partial HTML is emitted. -/
theorem c5_loads_chain_short_circuit (routes : List ServerRouteEntryE)
    (request : RequestE) (f : String → Except String Unit)
    (pre post : List RouteMatchE) (m : RouteMatchE)
    (acc0 acc1 : List (String × JVal)) (st st1 : HState)
    (routeId : String) (entry : ServerRouteEntryE) (modu : RouteModuleE) (lf : LoadFn)
    (e : String)
    (hpre : loadDataLoop routes request (some f) pre acc0 st = (.ok (.inl acc1), st1))
    (hkey : m.key = some routeId)
    (hentry : routeMapGet routes routeId = some entry)
    (hmod : entry.module = .ok modu)
    (hload : modu.load = some lf)
    (herr : (lf request.url m.params st1.locals).result = .error e)
    (hf : f e = .ok ()) :
    (loadDataLoop routes request (some f) (pre ++ m :: post) acc0 st
      = (.ok (.inr internalServerErrorResponse),
         { responseHeaders :=
             applyStaged st1.responseHeaders (lf request.url m.params st1.locals).staged
           responseStatus :=
             ((lf request.url m.params st1.locals).statusSet).getD st1.responseStatus
           locals := (lf request.url m.params st1.locals).newLocals
           trace := st1.trace ++ [TraceEv.loadCall routeId, TraceEv.handleErrorCall] }))
  ∧ (∀ (opts : HandlerOptionsE) (matchFn : String → Option (List RouteMatchE))
        (st0 st2 stX : HState) (meta : Option RouteMetaE) (r : ResponseE),
      maybeHandleApiRoute opts.routes request ((matchFn request.url.pathname).getD []) st0
          = (.ok none, st2) →
      resolveLeafRouteMeta opts.routes ((matchFn request.url.pathname).getD []) = .ok meta →
      (match meta with | some mm => mm.ssr == some false | none => false) = false →
      loadMatchedRouteData opts.routes request ((matchFn request.url.pathname).getD [])
          opts.handleError
          { st2 with responseHeaders := applyCacheMeta st2.responseHeaders meta }
        = (.ok (.inr r), stX) →
      resolvePage opts matchFn request st0 = (.ok r, stX)) := by
  constructor
  · revert hpre
    induction pre generalizing acc0 st with
    | nil =>
      intro hpre
      have hpre2 : ((Except.ok (Sum.inl acc0) : Except String
            ((List (String × JVal)) ⊕ ResponseE)), st)
          = (.ok (.inl acc1), st1) := hpre
      injection hpre2 with h1 h2
      injection h1 with h3
      injection h3 with h4
      subst h2
      subst h4
      rw [List.nil_append, loadDataLoop]
      rw [show getRouteId m = some routeId from hkey]
      dsimp only
      rw [hentry]
      dsimp only
      rw [hmod]
      dsimp only
      rw [hload]
      dsimp only
      rw [show (lf request.url m.params
          ({ st with trace := st.trace ++ [TraceEv.loadCall routeId] } : HState).locals).result
          = Except.error e from herr]
      dsimp only
      rw [hf]
      dsimp only [applyLoadEffects]
      simp [List.append_assoc]
    | cons m2 pre2 ih =>
      intro hpre
      rw [List.cons_append, loadDataLoop]
      rw [loadDataLoop] at hpre
      cases hk2 : getRouteId m2 with
      | none =>
        rw [hk2] at hpre
        exact ih acc0 st hpre
      | some rid2 =>
        rw [hk2] at hpre
        dsimp only at hpre ⊢
        cases hrm2 : routeMapGet routes rid2 with
        | none =>
          rw [hrm2] at hpre
          exact ih acc0 st hpre
        | some entry2 =>
          rw [hrm2] at hpre
          dsimp only at hpre ⊢
          cases hmod2 : entry2.module with
          | error e2 =>
            rw [hmod2] at hpre
            simp at hpre
          | ok modu2 =>
            rw [hmod2] at hpre
            dsimp only at hpre ⊢
            cases hload2 : modu2.load with
            | none =>
              rw [hload2] at hpre
              exact ih acc0 st hpre
            | some lf2 =>
              rw [hload2] at hpre
              dsimp only at hpre ⊢
              cases hres2 : (lf2 request.url m2.params
                  ({ st with trace := st.trace ++ [TraceEv.loadCall rid2] } : HState).locals).result with
              | ok data2 =>
                rw [hres2] at hpre
                dsimp only at hpre ⊢
                exact ih _ _ hpre
              | error e2 =>
                rw [hres2] at hpre
                dsimp only at hpre
                cases hf2 : f e2 with
                | ok u => rw [hf2] at hpre; simp at hpre
                | error e3 => rw [hf2] at hpre; simp at hpre
  · intro opts matchFn st0 st2 stX meta r hapi hmeta hssr hloadRes
    unfold resolvePage
    try dsimp only
    rw [hapi]
    try dsimp only
    rw [hmeta]
    try dsimp only
    rw [hssr]
    try dsimp only
    rw [hloadRes]
    rfl

/-- Witness for C5: a three-route chain whose middle load throws — the first
load runs, the third never does, the handleError hook fires once, and the
result is the generic 500. -/
theorem c5_witness :
    loadDataLoop c5wRoutes c5wReq (some (fun _ => .ok ()))
        [{ key := some "r1", params := [] }, { key := some "r2", params := [] },
         { key := some "r3", params := [] }] [] initialHState
      = (.ok (.inr internalServerErrorResponse),
         { responseHeaders := [], responseStatus := 200, locals := []
           trace := [TraceEv.loadCall "r1", TraceEv.loadCall "r2",
                     TraceEv.handleErrorCall] }) := by
  have h := (c5_loads_chain_short_circuit c5wRoutes c5wReq (fun _ => .ok ())
      [{ key := some "r1", params := [] }] [{ key := some "r3", params := [] }]
      { key := some "r2", params := [] } [] [("r1", .str "one")]
      initialHState { initialHState with trace := [TraceEv.loadCall "r1"] }
      "r2" { id := "r2", path := "/a/b", module := .ok { load := some c5wLoadBad } }
      { load := some c5wLoadBad } c5wLoadBad "boom"
      rfl rfl rfl rfl rfl rfl rfl).1
  exact h

/-! ## C6: header precedence in the assembled page response -/

/-- C6 (amended): on the page path, headers staged via `setHeaders` during
`load` override the cache-control computed from route metadata (which in turn
applies when nothing was staged), and the `handle` hook's returned response is
final (outermost); but the content-type is `set` unconditionally *after* the
staged headers, so the text/html default overrides any staged content-type —
the staged-over-default part of the original claim fails (see the
counterexample). -/
theorem c6_header_precedence (opts : HandlerOptionsE)
    (matchFn : String → Option (List RouteMatchE)) (request : RequestE)
    (rid : String) (params : List (String × String))
    (entry : ServerRouteEntryE) (modu : RouteModuleE) (lf : LoadFn)
    (d : JVal) (hs : List (String × String)) (sS : Option Nat)
    (nl : List (String × JVal)) (template html : String)
    (hmf : matchFn request.url.pathname = some [{ key := some rid, params := params }])
    (hrm : routeMapGet opts.routes rid = some entry)
    (hmod : entry.module = .ok modu)
    (hnoapi : getMethodHandler modu request.method = none)
    (hssr : (match modu.route with
             | some mm => mm.ssr == some false
             | none => false) = false)
    (hload : modu.load = some lf)
    (hlf : lf request.url params []
        = { result := .ok d, staged := hs, statusSet := sS, newLocals := nl })
    (htempl : opts.getTemplate request.url = .ok template)
    (hrender : opts.render
        { url := request.url
          matchList := [{ key := some rid, params := params }]
          routeData := [(rid, d)], locals := nl } = .ok html) :
    ((resolvePage opts matchFn request initialHState).1
        = .ok { status := sS.getD 200
                headers := pageHeaders modu.route hs
                body := .text (if strIncludes template appHtmlMarker then
                    replaceFirst template appHtmlMarker html else html) })
  ∧ hget (pageHeaders modu.route hs) "content-type" = some "text/html; charset=utf-8"
  ∧ hget (pageHeaders modu.route hs) "cache-control"
      = (match stagedLast hs "cache-control" with
         | some v => some v
         | none => hget (applyCacheMeta [] modu.route) "cache-control")
  ∧ (∀ mm cm n, modu.route = some mm → mm.cache = some cm →
      cm.maxAge = some (.finite n) → stagedLast hs "cache-control" = none →
      hget (pageHeaders modu.route hs) "cache-control"
        = some ("public, max-age=" ++ toString (max 0 n)))
  ∧ (∀ (hook : ResolveFn → ResolveFn) (r : ResponseE) (stH : HState),
      opts.handleHook = some hook →
      hook (runResolve opts matchFn request) initialHState = (.ok r, stH) →
      handleRequest opts matchFn request = (.ok r, stH)) := by
  have hapi : maybeHandleApiRoute opts.routes request
      [{ key := some rid, params := params }] initialHState = (.ok none, initialHState) := by
    unfold maybeHandleApiRoute
    rw [show ([{ key := some rid, params := params }] : List RouteMatchE).getLast?
        = some { key := some rid, params := params } from rfl]
    try dsimp only
    rw [show getRouteId { key := some rid, params := params } = some rid from rfl]
    try dsimp only
    rw [hrm]
    try dsimp only
    rw [hmod]
    try dsimp only
    rw [hnoapi]
  have hmeta : resolveLeafRouteMeta opts.routes [{ key := some rid, params := params }]
      = .ok modu.route := by
    unfold resolveLeafRouteMeta
    rw [show ([{ key := some rid, params := params }] : List RouteMatchE).getLast?
        = some { key := some rid, params := params } from rfl]
    try dsimp only
    rw [show getRouteId { key := some rid, params := params } = some rid from rfl]
    try dsimp only
    rw [hrm]
    try dsimp only
    rw [hmod]
    rfl
  have hld : loadDataLoop opts.routes request opts.handleError
      [{ key := some rid, params := params }] []
      { initialHState with responseHeaders := applyCacheMeta [] modu.route }
      = (.ok (.inl [(rid, d)]),
         { responseHeaders := applyStaged (applyCacheMeta [] modu.route) hs
           responseStatus := sS.getD 200
           locals := nl
           trace := [TraceEv.loadCall rid] }) := by
    rw [loadDataLoop]
    rw [show getRouteId { key := some rid, params := params } = some rid from rfl]
    try dsimp only
    rw [hrm]
    try dsimp only
    rw [hmod]
    try dsimp only
    rw [hload]
    try dsimp only
    rw [show lf request.url params initialHState.locals
        = { result := .ok d, staged := hs, statusSet := sS, newLocals := nl } from hlf]
    try dsimp only
    rw [loadDataLoop]
    rfl
  refine ⟨?_, ?_, ?_, ?_, ?_⟩
  · unfold resolvePage
    try dsimp only
    rw [hmf]
    rw [show ((some [{ key := some rid, params := params }] :
        Option (List RouteMatchE)).getD []) = [{ key := some rid, params := params }]
        from rfl]
    try dsimp only
    rw [hapi]
    try dsimp only
    rw [hmeta]
    try dsimp only
    rw [hssr]
    try dsimp only
    unfold loadMatchedRouteData
    rw [show ({ initialHState with
          responseHeaders := applyCacheMeta initialHState.responseHeaders modu.route } : HState)
        = { initialHState with responseHeaders := applyCacheMeta [] modu.route } from rfl]
    rw [hld]
    try dsimp only
    rw [htempl]
    try dsimp only
    rw [show opts.render
        { url := request.url
          matchList := [{ key := some rid, params := params }]
          routeData := [(rid, d)], locals := nl } = .ok html from hrender]
    rfl
  · exact hget_hset_eq _ _ _ _ rfl
  · unfold pageHeaders
    rw [hget_hset_ne _ _ _ _ (by decide)]
    rw [hget_applyStaged]
  · intro mm cm n hmm hcm hma hsl
    unfold pageHeaders
    rw [hget_hset_ne _ _ _ _ (by decide)]
    rw [hget_applyStaged, hsl]
    try dsimp only
    unfold applyCacheMeta
    rw [hmm]
    try dsimp only
    rw [hcm]
    try dsimp only
    rw [hma]
    try dsimp only
    exact hget_hset_eq _ _ _ _ rfl
  · intro hook r stH hhook happ
    unfold handleRequest
    rw [hhook]
    try dsimp only
    rw [happ]

/-- Counterexample to C6 as stated: a load stages
`setHeaders({'content-type': 'text/plain'})`, but the page response carries
the forced text/html content type — the staged header does not take precedence
over the content-type default. -/
theorem c6_counterexample :
    (handleRequest
        { routes :=
            [{ id := "home", path := "/"
               module := .ok
                 { load := some (fun _ _ locals =>
                     { result := .ok .null
                       staged := [("content-type", "text/plain")]
                       statusSet := none, newLocals := locals }) } }]
          getTemplate := fun _ => .ok "<!--app-html-->"
          render := fun _ => .ok "<div>x</div>" }
        (fun p => if p == "/" then some [{ key := some "home", params := [] }] else none)
        { url := { origin := "http://local", pathname := "/", search := [] }
          method := "GET", headers := [] }).1
      = .ok { status := 200
              headers := [("content-type", "text/html; charset=utf-8")]
              body := .text "<div>x</div>" }
    ∧ "text/html; charset=utf-8" ≠ "text/plain" := ⟨rfl, by decide⟩

/-- Witness for C6: with `cache.maxAge = 120` and a load staging
`cache-control: no-store`, the staged value wins. -/
theorem c6_witness :
    hget (pageHeaders c6wModule.route
        [("x-custom", "1"), ("cache-control", "no-store")]) "cache-control"
      = some "no-store" := by
  have h := (c6_header_precedence c6wOpts c6wMatch c6wReq "home" []
      { id := "home", path := "/", module := .ok c6wModule } c6wModule
      (fun _ _ locals =>
        { result := .ok .null
          staged := [("x-custom", "1"), ("cache-control", "no-store")]
          statusSet := none, newLocals := locals })
      .null [("x-custom", "1"), ("cache-control", "no-store")] none []
      "<!--app-html-->" "<div>home</div>"
      rfl rfl rfl rfl rfl rfl rfl rfl rfl).2.2.1
  exact h.trans (by rfl)

/-! ## C7: specificity score and match-priority order -/


theorem foldl_add_points (f : RouteSegment → Nat) (l : List RouteSegment) (init : Nat) :
    l.foldl (fun s x => s + f x) init = init + (l.map f).sum := by
  induction l generalizing init with
  | nil => simp
  | cons x xs ih => simp [ih, Nat.add_assoc]

theorem computeScore_eq_spec (segments : List RouteSegment) :
    computeScore segments
      = segments.length + (segments.map specSegmentPoints).sum := by
  show segments.foldl (fun s x => s + specSegmentPoints x) segments.length = _
  exact foldl_add_points specSegmentPoints segments segments.length

theorem routeLe_trans (a b c : RouteRecord) (h1 : routeLe a b = true)
    (h2 : routeLe b c = true) : routeLe a c = true := by
  simp only [routeLe, Bool.or_eq_true, Bool.and_eq_true, decide_eq_true_eq,
    beq_iff_eq] at h1 h2 ⊢
  rcases h1 with h1 | ⟨h1e, h1s⟩ <;> rcases h2 with h2 | ⟨h2e, h2s⟩
  · exact Or.inl (Nat.lt_trans h2 h1)
  · exact Or.inl (by rw [h2e]; exact h1)
  · exact Or.inl (by rw [← h1e]; exact h2)
  · exact Or.inr ⟨h2e.trans h1e, le_trans h1s h2s⟩

theorem routeLe_total (a b : RouteRecord) : (routeLe a b || routeLe b a) = true := by
  simp only [routeLe, Bool.or_eq_true, Bool.and_eq_true, decide_eq_true_eq, beq_iff_eq]
  rcases Nat.lt_trichotomy a.score b.score with h | h | h
  · exact Or.inr (Or.inl h)
  · rcases le_total a.id b.id with hs | hs
    · exact Or.inl (Or.inr ⟨h.symm, hs⟩)
    · exact Or.inr (Or.inr ⟨h, hs⟩)
  · exact Or.inl (Or.inl h)

/-- C7: every scanned route's score is the segment count plus 100 per static
segment, 10 per required param, 9 per optional param and 1 per rest segment;
the returned list is sorted descending by score with ties broken by ascending
id; and for a shared prefix the scores order static before required param
before optional param before rest. -/
theorem c7_score_and_priority_order (routesDir : String) (dirExists : Bool)
    (files : List String) (opts : ScanOptions) :
    (∀ r ∈ (scanRoutes routesDir dirExists files opts).routes,
        r.score = r.segments.length + (r.segments.map specSegmentPoints).sum)
  ∧ (scanRoutes routesDir dirExists files opts).routes.Pairwise
      (fun l r => r.score < l.score ∨ (l.score = r.score ∧ l.id ≤ r.id))
  ∧ (computeScore [RouteSegment.static "a", RouteSegment.static "b"]
        > computeScore [RouteSegment.static "a", RouteSegment.param "id"]
      ∧ computeScore [RouteSegment.static "a", RouteSegment.param "id"]
          > computeScore [RouteSegment.static "a", RouteSegment.optionalParam "id"]
      ∧ computeScore [RouteSegment.static "a", RouteSegment.optionalParam "id"]
          > computeScore [RouteSegment.static "a", RouteSegment.rest "all"]) := by
  refine ⟨?_, ?_, by decide, by decide, by decide⟩
  · intro r hr
    cases dirExists with
    | false => simp [scanRoutes] at hr
    | true =>
      have hr2 : r ∈ (scanRecords files opts).mergeSort routeLe := hr
      rw [List.mem_mergeSort] at hr2
      obtain ⟨f, hf, rfl⟩ := List.mem_map.mp hr2
      have hsc : (buildRecord f).score = computeScore (toSegments (stripExt f)) := rfl
      have hseg : (buildRecord f).segments = toSegments (stripExt f) := rfl
      rw [hsc, hseg]
      exact computeScore_eq_spec (toSegments (stripExt f))
  · cases dirExists with
    | false =>
      show List.Pairwise _ ([] : List RouteRecord)
      exact List.Pairwise.nil
    | true =>
      have hs : ((scanRecords files opts).mergeSort routeLe).Pairwise
          (fun a b => routeLe a b) :=
        List.sorted_mergeSort routeLe_trans routeLe_total (scanRecords files opts)
      refine List.Pairwise.imp ?_ hs
      intro a b h
      simp only [routeLe, Bool.or_eq_true, Bool.and_eq_true, decide_eq_true_eq,
        beq_iff_eq] at h
      rcases h with h | ⟨he, hsle⟩
      · exact Or.inl h
      · exact Or.inr ⟨he.symm, hsle⟩

/-- Witness for C7 at a one-file scan. -/
theorem c7_witness :
    (buildRecord "a/[id].ts").score
      = (buildRecord "a/[id].ts").segments.length
        + ((buildRecord "a/[id].ts").segments.map specSegmentPoints).sum := by
  have h := (c7_score_and_priority_order "routes" true ["a/[id].ts"] {}).1
  apply h
  show buildRecord "a/[id].ts" ∈ (scanRecords ["a/[id].ts"] {}).mergeSort routeLe
  rw [List.mem_mergeSort]
  decide

/-! ## C8: conflict diagnostics -/

theorem strAppend_assoc (a b c : String) : a ++ b ++ c = a ++ (b ++ c) := by
  apply String.ext
  simp [List.append_assoc]

theorem joinSepAux_mem (sep : List Char) (ls : List (List Char)) (x : List Char)
    (hx : x ∈ ls) : ∃ pre post, joinSepAux sep ls = pre ++ x ++ post := by
  induction ls with
  | nil => cases hx
  | cons y ys ih =>
    cases hx with
    | head =>
      cases ys with
      | nil => exact ⟨[], [], by simp [joinSepAux]⟩
      | cons z zs => exact ⟨[], sep ++ joinSepAux sep (z :: zs), by simp [joinSepAux]⟩
    | tail _ hmem =>
      obtain ⟨pre, post, heq⟩ := ih hmem
      cases ys with
      | nil => cases hmem
      | cons z zs =>
        exact ⟨y ++ sep ++ pre, post,
          by simp [joinSepAux, heq, List.append_assoc]⟩

theorem appearsIn_of_line (needle line0 line1 pre0 sep msg : String)
    (xs : List String)
    (hmsg : msg.data = pre0.data ++ (joinSep sep xs).data)
    (hx : ∃ x ∈ xs, x.data = line0.data ++ needle.data ++ line1.data) :
    appearsIn needle msg := by
  obtain ⟨x, hxmem, hxdata⟩ := hx
  obtain ⟨pre, post, heq⟩ :=
    joinSepAux_mem sep.data (xs.map String.data) x.data
      (List.mem_map.mpr ⟨x, hxmem, rfl⟩)
  refine ⟨pre0.data ++ pre ++ line0.data, line1.data ++ post, ?_⟩
  rw [hmsg]
  show pre0.data ++ joinSepAux sep.data (xs.map String.data) = _
  rw [heq, hxdata]
  simp [List.append_assoc]

theorem appearsIn_mkSignatureDiag (g : String × List RouteRecord) (r : RouteRecord)
    (hr : r ∈ g.2) : appearsIn r.id (mkSignatureDiag g).message := by
  refine appearsIn_of_line r.id "- " (" (" ++ r.routePath ++ ")")
    ("Route signature conflict \"" ++ g.1 ++ "\".\n") "\n"
    (mkSignatureDiag g).message
    (g.2.map (fun r => "- " ++ r.id ++ " (" ++ r.routePath ++ ")"))
    (by simp [mkSignatureDiag, List.append_assoc]) ?_
  refine ⟨"- " ++ r.id ++ " (" ++ r.routePath ++ ")", List.mem_map.mpr ⟨r, hr, rfl⟩, ?_⟩
  simp [List.append_assoc]

theorem appearsIn_mkRoutePathDiag (g : String × List RouteRecord) (r : RouteRecord)
    (hr : r ∈ g.2) : appearsIn r.id (mkRoutePathDiag g).message := by
  refine appearsIn_of_line r.id "- " ""
    ("Duplicate route path \"" ++ g.1 ++ "\".\n") "\n"
    (mkRoutePathDiag g).message
    (g.2.map (fun r => "- " ++ r.id))
    (by simp [mkRoutePathDiag, List.append_assoc]) ?_
  refine ⟨"- " ++ r.id, List.mem_map.mpr ⟨r, hr, rfl⟩, ?_⟩
  simp

theorem appendGroup_keys (gs : List (String × List RouteRecord)) (k : String)
    (r : RouteRecord) :
    (appendGroup gs k r).map (fun g => g.1)
      = if gs.any (fun g => g.1 == k) then gs.map (fun g => g.1)
        else gs.map (fun g => g.1) ++ [k] := by
  unfold appendGroup
  by_cases h : gs.any (fun g => g.1 == k)
  · rw [if_pos h, if_pos h, List.map_map]
    refine List.map_congr_left ?_
    intro g _
    show (if (g.1 == k) = true then (g.1, g.2 ++ [r]) else g).1 = g.1
    by_cases hg : (g.1 == k) = true
    · rw [if_pos hg]
    · rw [if_neg hg]
  · rw [if_neg h, if_neg h, List.map_append]
    rfl

theorem nodupKeys_foldAppend (keyOf : RouteRecord → String) (rs : List RouteRecord) :
    ∀ gs : List (String × List RouteRecord),
      ((gs.map (fun g => g.1)).Nodup) →
      (((rs.foldl (fun gs r => appendGroup gs (keyOf r) r) gs)).map (fun g => g.1)).Nodup := by
  induction rs with
  | nil => intro gs h; exact h
  | cons r rest ih =>
    intro gs h
    show (((rest.foldl (fun gs r => appendGroup gs (keyOf r) r)
        (appendGroup gs (keyOf r) r))).map (fun g => g.1)).Nodup
    apply ih
    rw [appendGroup_keys]
    by_cases hany : gs.any (fun g => g.1 == keyOf r)
    · rw [if_pos hany]; exact h
    · rw [if_neg hany]
      refine List.Nodup.append h (List.nodup_singleton _) ?_
      intro x hxmem hxk
      have hx : x = keyOf r := by simpa using hxk
      obtain ⟨g, hg, rfl⟩ := List.mem_map.mp hxmem
      rw [Bool.not_eq_true] at hany
      rw [List.any_eq_false] at hany
      exact absurd (by simpa using hx) (hany g hg)

/-- C8: each signature group with at least two members yields exactly one
error diagnostic and likewise each route-path group, independently (the
error-diagnostic list is precisely one entry per conflicting group, with the
group keys pairwise distinct); each conflict diagnostic names every conflicting
route id inside its message; and a scan with no conflicting groups produces no
error diagnostics. -/
theorem c8_conflict_diagnostics (routesDir : String) (files : List String)
    (opts : ScanOptions) :
    (errorDiags (scanRoutes routesDir true files opts)
        = ((sigGroups files opts).filter (fun g => g.2.length ≥ 2)).map mkSignatureDiag
          ++ ((pathGroups files opts).filter (fun g => g.2.length ≥ 2)).map mkRoutePathDiag)
  ∧ ((sigGroups files opts).map (fun g => g.1)).Nodup
  ∧ ((pathGroups files opts).map (fun g => g.1)).Nodup
  ∧ (∀ g ∈ (sigGroups files opts).filter (fun g => g.2.length ≥ 2), ∀ r ∈ g.2,
      appearsIn r.id (mkSignatureDiag g).message)
  ∧ (∀ g ∈ (pathGroups files opts).filter (fun g => g.2.length ≥ 2), ∀ r ∈ g.2,
      appearsIn r.id (mkRoutePathDiag g).message)
  ∧ ((sigGroups files opts).filter (fun g => g.2.length ≥ 2) = [] →
      (pathGroups files opts).filter (fun g => g.2.length ≥ 2) = [] →
      errorDiags (scanRoutes routesDir true files opts) = []) := by
  have hfilter : errorDiags (scanRoutes routesDir true files opts)
      = ((sigGroups files opts).filter (fun g => g.2.length ≥ 2)).map mkSignatureDiag
        ++ ((pathGroups files opts).filter (fun g => g.2.length ≥ 2)).map mkRoutePathDiag := by
    show (((sigGroups files opts).filter (fun g => g.2.length ≥ 2)).map mkSignatureDiag
        ++ ((pathGroups files opts).filter (fun g => g.2.length ≥ 2)).map
          mkRoutePathDiag).filter (fun d => d.level == DiagLevel.error) = _
    rw [List.filter_eq_self]
    intro d hd
    rcases List.mem_append.mp hd with hd1 | hd2
    · obtain ⟨g, _, rfl⟩ := List.mem_map.mp hd1
      rfl
    · obtain ⟨g, _, rfl⟩ := List.mem_map.mp hd2
      rfl
  refine ⟨hfilter, ?_, ?_, ?_, ?_, ?_⟩
  · exact nodupKeys_foldAppend (fun r => r.signature) (scanRecords files opts) []
      List.Pairwise.nil
  · exact nodupKeys_foldAppend (fun r => r.routePath) (scanRecords files opts) []
      List.Pairwise.nil
  · intro g hg r hr
    exact appearsIn_mkSignatureDiag g r hr
  · intro g hg r hr
    exact appearsIn_mkRoutePathDiag g r hr
  · intro h1 h2
    rw [hfilter, h1, h2]
    rfl

/-- Witness for C8 at the overlap case `a.ts` + `a/index.ts` (same routePath
`/a` and same signature `s:a`): two independent error diagnostics, each naming
both route ids. -/
theorem c8_witness :
    errorDiags (scanRoutes "routes" true ["a.ts", "a/index.ts"] {})
      = [{ level := .error
           message := "Route signature conflict \"s:a\".\n- a (/a)\n- a/index (/a)" },
         { level := .error
           message := "Duplicate route path \"/a\".\n- a\n- a/index" }]
    ∧ appearsIn "a/index"
        (mkSignatureDiag ("s:a", [buildRecord "a.ts", buildRecord "a/index.ts"])).message := by
  have h := c8_conflict_diagnostics "routes" ["a.ts", "a/index.ts"] {}
  constructor
  · exact h.1.trans (by rfl)
  · exact h.2.2.2.1 ("s:a", [buildRecord "a.ts", buildRecord "a/index.ts"])
      (by decide) (buildRecord "a/index.ts") (by decide)

/-! ## C9: route ids keep a trailing `index` segment -/

/-- C9 (amended): a scanned route's `id` is the relative path with the
extension stripped, with no further processing — the final `index` segment is
dropped only when computing `segments` (and hence `routePath`, `signature`
and `score`), not in the `id` itself. -/
theorem c9_route_id_keeps_index (routesDir : String) (dirExists : Bool)
    (files : List String) (opts : ScanOptions) :
    ∀ r ∈ (scanRoutes routesDir dirExists files opts).routes,
      r.id = stripExt r.file
      ∧ r.segments = toSegments (stripExt r.file)
      ∧ r.routePath = toRoutePath (toSegments (stripExt r.file)) := by
  intro r hr
  cases dirExists with
  | false => simp [scanRoutes] at hr
  | true =>
    have hr2 : r ∈ (scanRecords files opts).mergeSort routeLe := hr
    rw [List.mem_mergeSort] at hr2
    obtain ⟨f, hf, rfl⟩ := List.mem_map.mp hr2
    have hfile : (buildRecord f).file = f := rfl
    have h1 : (buildRecord f).id = stripExt f := rfl
    have h2 : (buildRecord f).segments = toSegments (stripExt f) := rfl
    have h3 : (buildRecord f).routePath = toRoutePath (toSegments (stripExt f)) := by
      simp only [buildRecord]
    rw [hfile]
    exact ⟨h1, h2, h3⟩

/-- Counterexample to C9 as stated: the file `a/index.ts` yields route id
`a/index`, not `a` — the `index` segment is not dropped from the id (while
the routePath is still `/a`). -/
theorem c9_counterexample :
    ((scanRoutes "routes" true ["a/index.ts"] {}).routes.map (fun r => r.id))
        = ["a/index"]
    ∧ ((scanRoutes "routes" true ["a/index.ts"] {}).routes.map (fun r => r.id))
        ≠ ["a"]
    ∧ ((scanRoutes "routes" true ["a/index.ts"] {}).routes.map (fun r => r.routePath))
        = ["/a"] := by
  have h1 : ((scanRoutes "routes" true ["a/index.ts"] {}).routes.map (fun r => r.id))
      = ["a/index"] := by
    show ((scanRecords ["a/index.ts"] {}).mergeSort routeLe).map (fun r => r.id) = _
    rw [show scanRecords ["a/index.ts"] {} = [buildRecord "a/index.ts"] from rfl]
    rw [List.mergeSort_singleton]
    rfl
  have h3 : ((scanRoutes "routes" true ["a/index.ts"] {}).routes.map
      (fun r => r.routePath)) = ["/a"] := by
    show ((scanRecords ["a/index.ts"] {}).mergeSort routeLe).map (fun r => r.routePath) = _
    rw [show scanRecords ["a/index.ts"] {} = [buildRecord "a/index.ts"] from rfl]
    rw [List.mergeSort_singleton]
    rfl
  exact ⟨h1, by rw [h1]; decide, h3⟩

/-- Witness for C9 at the file `a/index.ts`. -/
theorem c9_witness :
    (buildRecord "a/index.ts").id = stripExt "a/index.ts"
    ∧ (buildRecord "a/index.ts").segments = toSegments (stripExt "a/index.ts")
    ∧ (buildRecord "a/index.ts").routePath
        = toRoutePath (toSegments (stripExt "a/index.ts")) := by
  have h := c9_route_id_keeps_index "routes" true ["a/index.ts"] {}
    (buildRecord "a/index.ts")
  exact h (by
    show buildRecord "a/index.ts" ∈ (scanRecords ["a/index.ts"] {}).mergeSort routeLe
    rw [List.mem_mergeSort]
    decide)

end FictKit
